import Mathlib

/-!
Verification development for the sql2api SQL request pipeline.

Strings are modelled as lists of characters; the Go standard library is
ASCII-only in every call site that matters here, so character-level maps
(lowercasing, whitespace tests) follow the ASCII behaviour of the Go
functions they embed. Go regular expressions (RE2) are embedded with a
Brzozowski-derivative matcher; every pattern literal from the source is
rebuilt as an explicit regex term.
-/

namespace SqlToApi

/-- Strings as character lists. -/
abbrev Str := List Char

/-- Shorthand turning a Lean string literal into the list model. -/
def sLit (s : String) : Str := s.toList

/-- The single-quote character, by code point. -/
def squote : Char := Char.ofNat 39

/-- Whitespace in the sense of unicode.IsSpace restricted to ASCII, as used
by strings.TrimSpace and strings.Fields. -/
def goIsSpace (c : Char) : Bool :=
  c = ' ' || c = '\t' || c = '\n' || c = Char.ofNat 11 || c = Char.ofNat 12 || c = '\r'

/-- strings.ToLower (ASCII behaviour). -/
def toLowerStr (s : Str) : Str := s.map Char.toLower

/-- strings.ToUpper (ASCII behaviour). -/
def toUpperStr (s : Str) : Str := s.map Char.toUpper

/-- strings.TrimSpace. -/
def trimSpace (s : Str) : Str :=
  ((s.dropWhile goIsSpace).reverse.dropWhile goIsSpace).reverse

/-- strings.Trim with an explicit cutset, applied to both ends. -/
def trimChars (s cut : Str) : Str :=
  ((s.dropWhile (fun c => cut.contains c)).reverse.dropWhile (fun c => cut.contains c)).reverse

/-- strings.Contains: the needle occurs as a contiguous substring. -/
def containsSub (hay needle : Str) : Bool :=
  match hay with
  | [] => needle.isPrefixOf ([] : Str)
  | _ :: rest => needle.isPrefixOf hay || containsSub rest needle

/-- strings.HasSuffix. -/
def endsWith (s suffx : Str) : Bool := suffx.isSuffixOf s

/-- Fuel-driven core of strings.Count (non-overlapping occurrences). -/
def countSubAux (needle : Str) : Str → Nat → Nat
  | _, 0 => 0
  | [], _ => 0
  | hay, Nat.succ fuel =>
    if needle.isPrefixOf hay then 1 + countSubAux needle (hay.drop needle.length) fuel
    else countSubAux needle hay.tail fuel

/-- strings.Count: non-overlapping occurrences of a non-empty needle;
for the empty needle Go returns the rune count plus one. -/
def countSub (hay needle : Str) : Nat :=
  if needle = [] then hay.length + 1 else countSubAux needle hay hay.length

/-- Accumulator core of strings.Fields. -/
def fieldsAux : Str → Str → List Str
  | [], acc => if acc = [] then [] else [acc.reverse]
  | c :: rest, acc =>
    if goIsSpace c then
      if acc = [] then fieldsAux rest [] else acc.reverse :: fieldsAux rest []
    else fieldsAux rest (c :: acc)

/-- strings.Fields: split around runs of whitespace. -/
def fieldsStr (s : Str) : List Str := fieldsAux s []

/-- Join a list of strings with a separator (strings.Join). -/
def joinSep (sep : Str) : List Str → Str
  | [] => []
  | [x] => x
  | x :: y :: rest => x ++ sep ++ joinSep sep (y :: rest)

/-- Decimal rendering of a natural number, as Go fmt does with %d. -/
def natRepr (n : Nat) : Str := (toString n).toList

/-- Decimal rendering of an integer, as Go fmt does with %d. -/
def intRepr (n : Int) : Str := (toString n).toList

/-! ## A small RE2 fragment as Brzozowski derivatives

Only the constructs appearing in the source patterns are needed: character
classes, concatenation, alternation and Kleene star. Matching is total and
executable; searching wraps the pattern in unconstrained padding exactly as
an unanchored Go MatchString does. -/

/-- Regular expressions over characters. -/
inductive RE where
  | void : RE
  | eps : RE
  | cls : (Char → Bool) → RE
  | cat : RE → RE → RE
  | alt : RE → RE → RE
  | star : RE → RE

/-- Does the expression accept the empty string? -/
def RE.nullable : RE → Bool
  | .void => false
  | .eps => true
  | .cls _ => false
  | .cat a b => a.nullable && b.nullable
  | .alt a b => a.nullable || b.nullable
  | .star _ => true

/-- Concatenation smart constructor (keeps derivatives small). -/
def reCat : RE → RE → RE
  | .void, _ => .void
  | .eps, b => b
  | a, b =>
    match b with
    | .void => .void
    | .eps => a
    | _ => .cat a b

/-- Alternation smart constructor. -/
def reAlt : RE → RE → RE
  | .void, b => b
  | a, b =>
    match b with
    | .void => a
    | _ => .alt a b

/-- Brzozowski derivative by one character. -/
def RE.deriv : RE → Char → RE
  | .void, _ => .void
  | .eps, _ => .void
  | .cls p, c => if p c then .eps else .void
  | .cat a b, c =>
    if a.nullable then reAlt (reCat (a.deriv c) b) (b.deriv c)
    else reCat (a.deriv c) b
  | .alt a b, c => reAlt (a.deriv c) (b.deriv c)
  | .star a, c => reCat (a.deriv c) (.star a)

/-- Whole-string match. -/
def reMatch (r : RE) (s : Str) : Bool := (s.foldl RE.deriv r).nullable

/-- Any single character (used only for unanchored padding). -/
def reAny : RE := .cls fun _ => true

/-- Unanchored search, as Go MatchString on a pattern without anchors. -/
def reSearch (r : RE) (s : Str) : Bool :=
  reMatch (reCat (RE.star reAny) (reCat r (RE.star reAny))) s

/-- Search for a match that must start at the beginning of the string. -/
def reSearchAtStart (r : RE) (s : Str) : Bool :=
  reMatch (reCat r (RE.star reAny)) s

/-- A literal character, matched exactly. -/
def reChar (c : Char) : RE := .cls fun x => x = c

/-- A literal string, matched exactly. -/
def reLit (s : String) : RE := s.toList.foldr (fun c r => reCat (reChar c) r) .eps

/-- A literal string under the (?i) flag. -/
def reLitCI (s : String) : RE :=
  s.toList.foldr (fun c r => reCat (.cls fun x => x.toLower = c.toLower) r) .eps

/-- Alternation of a list of patterns. -/
def reAlts (rs : List RE) : RE := rs.foldr reAlt .void

/-- The RE2 class backslash-s. -/
def reSpace : RE := .cls fun c => c = '\t' || c = '\n' || c = Char.ofNat 12 || c = '\r' || c = ' '

/-- The RE2 class backslash-w. -/
def reWord : RE := .cls fun c => c.isAlpha || c.isDigit || c = '_'

/-- The RE2 class backslash-d. -/
def reDigit : RE := .cls Char.isDigit

/-- The RE2 dot: any character except newline. -/
def reDot : RE := .cls fun c => !(c = '\n')

/-- One or more repetitions. -/
def rePlus (r : RE) : RE := reCat r (RE.star r)

/-- Search for a pattern of the shape (backslash-s or caret) followed by a
body: either the body matches at the start of the string, or somewhere
preceded by a whitespace character. -/
def searchSpaceOrStart (body : RE) (s : Str) : Bool :=
  reSearchAtStart body s || reSearch (reCat reSpace body) s

/-! ## Dialect adapter (internal/sql/dialect.go)

Both dialects first trim the statement and strip one trailing semicolon;
the embedding spells those two steps out exactly as the Go methods do. -/

/-- PostgreSQLDialect.ApplyPagination. -/
def postgresApplyPagination (query : Str) (offset limit : Int) : Str :=
  if limit ≤ 0 then query
  else
    let q1 := trimSpace query
    let q2 := if endsWith (toLowerStr q1) (sLit ";") then q1.dropLast else q1
    if offset > 0 then
      q2 ++ sLit " LIMIT " ++ intRepr limit ++ sLit " OFFSET " ++ intRepr offset
    else
      q2 ++ sLit " LIMIT " ++ intRepr limit

/-- PostgreSQLDialect.ApplySort. -/
def postgresApplySort (query sortBy sortOrder : Str) : Str :=
  if sortBy = [] then query
  else
    let q1 := trimSpace query
    let q2 := if endsWith (toLowerStr q1) (sLit ";") then q1.dropLast else q1
    let ord := if sortOrder ≠ sLit "ASC" ∧ sortOrder ≠ sLit "DESC" then sLit "ASC" else sortOrder
    if containsSub (toLowerStr q2) (sLit "order by") then
      q2 ++ sLit ", " ++ sortBy ++ sLit " " ++ ord
    else
      q2 ++ sLit " ORDER BY " ++ sortBy ++ sLit " " ++ ord

/-- OracleDialect.ApplyPagination. -/
def oracleApplyPagination (query : Str) (offset limit : Int) : Str :=
  if limit ≤ 0 then query
  else
    let q1 := trimSpace query
    let q2 := if endsWith (toLowerStr q1) (sLit ";") then q1.dropLast else q1
    if offset > 0 then
      q2 ++ sLit " OFFSET " ++ intRepr offset ++ sLit " ROWS FETCH NEXT " ++ intRepr limit
        ++ sLit " ROWS ONLY"
    else
      q2 ++ sLit " FETCH FIRST " ++ intRepr limit ++ sLit " ROWS ONLY"

/-- OracleDialect.ApplySort (textually the same algorithm as the
PostgreSQL method, kept separate as in the source). -/
def oracleApplySort (query sortBy sortOrder : Str) : Str :=
  if sortBy = [] then query
  else
    let q1 := trimSpace query
    let q2 := if endsWith (toLowerStr q1) (sLit ";") then q1.dropLast else q1
    let ord := if sortOrder ≠ sLit "ASC" ∧ sortOrder ≠ sLit "DESC" then sLit "ASC" else sortOrder
    if containsSub (toLowerStr q2) (sLit "order by") then
      q2 ++ sLit ", " ++ sortBy ++ sLit " " ++ ord
    else
      q2 ++ sLit " ORDER BY " ++ sortBy ++ sLit " " ++ ord

/-- PostgreSQLDialect.GetLimitQuery. -/
def postgresGetLimitQuery (limit : Int) : Str := sLit "LIMIT " ++ intRepr limit

/-- OracleDialect.GetLimitQuery. -/
def oracleGetLimitQuery (limit : Int) : Str :=
  sLit "FETCH FIRST " ++ intRepr limit ++ sLit " ROWS ONLY"

/-! Spec-side formulations of the adapter operations, written from the
wording of the specification (section 4.1): inputs are normalized by
trimming and stripping one trailing semicolon before composition. -/

/-- Normalization described in the specification: trim, then strip one
trailing semicolon. -/
def specNormalize (q : Str) : Str :=
  let t := trimSpace q
  if endsWith (toLowerStr t) (sLit ";") then t.dropLast else t

/-- Modelled from the spec wording of apply_sort: order defaults to ASC
when not exactly ASC or DESC; when the statement already contains
"order by" under a case-insensitive scan the sort key is appended to the
existing clause, otherwise a fresh ORDER BY is appended; an empty sort
field leaves the query unchanged. -/
def specApplySort (query sortBy sortOrder : Str) : Str :=
  if sortBy = [] then query
  else
    let q := specNormalize query
    let dir := if sortOrder = sLit "ASC" ∨ sortOrder = sLit "DESC" then sortOrder else sLit "ASC"
    if containsSub (toLowerStr q) (sLit "order by") then
      q ++ sLit ", " ++ sortBy ++ sLit " " ++ dir
    else
      q ++ sLit " ORDER BY " ++ sortBy ++ sLit " " ++ dir

/-- Modelled from the spec wording of apply_pagination for postgres:
appends LIMIT n, with OFFSET m exactly when the offset is positive;
non-positive limit returns the input unchanged. -/
def specPostgresPagination (query : Str) (offset limit : Int) : Str :=
  if limit ≤ 0 then query
  else if offset > 0 then
    specNormalize query ++ sLit " LIMIT " ++ intRepr limit ++ sLit " OFFSET " ++ intRepr offset
  else
    specNormalize query ++ sLit " LIMIT " ++ intRepr limit

/-- Modelled from the spec wording of apply_pagination for oracle:
OFFSET m ROWS FETCH NEXT n ROWS ONLY when the offset is positive, else
FETCH FIRST n ROWS ONLY; non-positive limit returns the input unchanged. -/
def specOraclePagination (query : Str) (offset limit : Int) : Str :=
  if limit ≤ 0 then query
  else if offset > 0 then
    specNormalize query ++ sLit " OFFSET " ++ intRepr offset ++ sLit " ROWS FETCH NEXT "
      ++ intRepr limit ++ sLit " ROWS ONLY"
  else
    specNormalize query ++ sLit " FETCH FIRST " ++ intRepr limit ++ sLit " ROWS ONLY"

/-! ## Data model (internal/model/model.go)

Go maps carrying request attributes are embedded as association lists; the
list order stands for the iteration order of the map. Scalar parameter
values (interface values in Go) are a small closed sum. -/

/-- A request-level scalar value. -/
inductive GoVal where
  | vstr : Str → GoVal
  | vint : Int → GoVal
  | vbool : Bool → GoVal
  | vnull : GoVal
deriving DecidableEq

/-- Stable SQL error codes from model.go. -/
def sqlErrorSyntax : Nat := 4001

def sqlErrorParams : Nat := 4002

def sqlErrorPermission : Nat := 4003

def sqlErrorConnection : Nat := 4004

def sqlErrorTransaction : Nat := 4005

def sqlErrorTimeout : Nat := 4006

def sqlErrorResultSize : Nat := 4007

/-- SQLError payload. -/
structure SQLErrorM where
  code : Nat
  message : Str
  details : Str
deriving DecidableEq

/-- OrderByClause. -/
structure OrderByClauseM where
  field : Str
  order : Str

/-- StructuredQuery; the attribute maps keep their Go field roles. -/
structure StructuredQueryM where
  table : Str
  action : Str
  fields : List Str
  whereMap : List (Str × GoVal)
  dataMap : List (Str × GoVal)
  groupBy : List Str
  havingMap : List (Str × GoVal)
  orderBy : List OrderByClauseM
  limit : Int

/-- SQLConfig fields consumed by the pipeline. -/
structure SQLConfigM where
  allowedTables : List Str
  allowedActions : List Str
  enableRawSQL : Bool
  enableBatch : Bool
  enableTransactions : Bool
  maxResultSize : Nat

/-! ## Query builder (internal/sql/builder.go) -/

/-- QueryBuilder.getParameterPlaceholder. -/
def getParameterPlaceholder (dbType : Str) (i : Nat) : Str :=
  if dbType = sLit "postgres" then '$' :: natRepr i
  else if dbType = sLit "oracle" then sLit ":param_" ++ natRepr i
  else sLit "?"

/-- The parameter-map key written for placeholder index i. -/
def paramName (i : Nat) : Str := sLit "param_" ++ natRepr i

/-- Loop body of buildWhereClause (and of the SET/VALUES loops): walks the
condition list producing one clause and one named parameter per entry,
with the placeholder index advancing from the start index. -/
def buildWhereAux (dbType : Str) : List (Str × GoVal) → Nat → List Str × List (Str × GoVal)
  | [], _ => ([], [])
  | (f, v) :: rest, i =>
    let (cs, ps) := buildWhereAux dbType rest (i + 1)
    ((f ++ sLit " = " ++ getParameterPlaceholder dbType i) :: cs, (paramName i, v) :: ps)

/-- QueryBuilder.buildWhereClause: clauses joined with AND plus the
parameter map fragment (empty input yields empty clause and no params). -/
def buildWhereClause (dbType : Str) (conds : List (Str × GoVal)) (startIndex : Nat) :
    Str × List (Str × GoVal) :=
  let (cs, ps) := buildWhereAux dbType conds startIndex
  (joinSep (sLit " AND ") cs, ps)

/-- DialectFactory.CreateDialect followed by GetLimitQuery: postgres and
postgresql (and the default) render LIMIT n, oracle renders FETCH FIRST. -/
def dialectGetLimitQuery (dbType : Str) (limit : Int) : Str :=
  let t := toLowerStr dbType
  if t = sLit "postgres" ∨ t = sLit "postgresql" then postgresGetLimitQuery limit
  else if t = sLit "oracle" then oracleGetLimitQuery limit
  else postgresGetLimitQuery limit

/-- QueryBuilder.buildSelectQuery. -/
def buildSelectQuery (dbType : Str) (q : StructuredQueryM) :
    Except Str (Str × List (Str × GoVal)) :=
  let sel := sLit "SELECT "
    ++ (if q.fields.length > 0 then joinSep (sLit ", ") q.fields else sLit "*")
    ++ sLit " FROM " ++ q.table
  let (afterWhere, params1, idx1) :=
    if q.whereMap.length > 0 then
      let (wc, wp) := buildWhereClause dbType q.whereMap 1
      (sel ++ sLit " WHERE " ++ wc, wp, 1 + wp.length)
    else (sel, [], 1)
  let afterGroup :=
    if q.groupBy.length > 0 then afterWhere ++ sLit " GROUP BY " ++ joinSep (sLit ", ") q.groupBy
    else afterWhere
  let (afterHaving, params2) :=
    if q.havingMap.length > 0 then
      let (hc, hp) := buildWhereClause dbType q.havingMap idx1
      (afterGroup ++ sLit " HAVING " ++ hc, params1 ++ hp)
    else (afterGroup, params1)
  let afterOrder :=
    if q.orderBy.length > 0 then
      afterHaving ++ sLit " ORDER BY " ++ joinSep (sLit ", ")
        (q.orderBy.map fun ob =>
          ob.field ++ sLit " " ++
            (if toUpperStr ob.order = sLit "DESC" then sLit "DESC" else sLit "ASC"))
    else afterHaving
  let final :=
    if q.limit > 0 then afterOrder ++ sLit " " ++ dialectGetLimitQuery dbType q.limit
    else afterOrder
  .ok (final, params2)

/-- Loop body of buildInsertQuery: field list, placeholder list and
parameter map accumulated over the data entries. -/
def insertLoopAux (dbType : Str) : List (Str × GoVal) → Nat →
    List Str × List Str × List (Str × GoVal)
  | [], _ => ([], [], [])
  | (f, v) :: rest, i =>
    let (fs, phs, ps) := insertLoopAux dbType rest (i + 1)
    (f :: fs, getParameterPlaceholder dbType i :: phs, (paramName i, v) :: ps)

/-- QueryBuilder.buildInsertQuery. -/
def buildInsertQuery (dbType : Str) (q : StructuredQueryM) :
    Except Str (Str × List (Str × GoVal)) :=
  if q.dataMap.length = 0 then .error (sLit "no data provided for insert")
  else
    let (fields, placeholders, params) := insertLoopAux dbType q.dataMap 1
    .ok (sLit "INSERT INTO " ++ q.table ++ sLit " (" ++ joinSep (sLit ", ") fields
      ++ sLit ") VALUES (" ++ joinSep (sLit ", ") placeholders ++ sLit ")", params)

/-- QueryBuilder.buildUpdateQuery. -/
def buildUpdateQuery (dbType : Str) (q : StructuredQueryM) :
    Except Str (Str × List (Str × GoVal)) :=
  if q.dataMap.length = 0 then .error (sLit "no data provided for update")
  else
    let (setClauses, setParams) := buildWhereAux dbType q.dataMap 1
    let base := sLit "UPDATE " ++ q.table ++ sLit " SET " ++ joinSep (sLit ", ") setClauses
    if q.whereMap.length > 0 then
      let (wc, wp) := buildWhereClause dbType q.whereMap (1 + q.dataMap.length)
      .ok (base ++ sLit " WHERE " ++ wc, setParams ++ wp)
    else .ok (base, setParams)

/-- QueryBuilder.buildDeleteQuery. -/
def buildDeleteQuery (dbType : Str) (q : StructuredQueryM) :
    Except Str (Str × List (Str × GoVal)) :=
  if q.whereMap.length > 0 then
    let (wc, wp) := buildWhereClause dbType q.whereMap 1
    .ok (sLit "DELETE FROM " ++ q.table ++ sLit " WHERE " ++ wc, wp)
  else .error (sLit "WHERE clause is required for DELETE operation")

/-- QueryBuilder.BuildStructuredQuery: dispatch on the lower-cased action. -/
def buildStructuredQuery (dbType : Str) (q : StructuredQueryM) :
    Except Str (Str × List (Str × GoVal)) :=
  let a := toLowerStr q.action
  if a = sLit "select" then buildSelectQuery dbType q
  else if a = sLit "insert" then buildInsertQuery dbType q
  else if a = sLit "update" then buildUpdateQuery dbType q
  else if a = sLit "delete" then buildDeleteQuery dbType q
  else .error (sLit "unsupported action: " ++ q.action)

/-! Spec-side account of parameter binding, written from the wording of
property P1: the builder walks data, then where, then having, in insertion
order, and names the i-th bound value param_i. -/

/-- Modelled from the spec: the values a structured query binds, walking
data, then where, then having, restricted to the clauses each action
renders. -/
def walkedValues (q : StructuredQueryM) : List GoVal :=
  let a := toLowerStr q.action
  if a = sLit "select" then q.whereMap.map Prod.snd ++ q.havingMap.map Prod.snd
  else if a = sLit "insert" then q.dataMap.map Prod.snd
  else if a = sLit "update" then q.dataMap.map Prod.snd ++ q.whereMap.map Prod.snd
  else q.whereMap.map Prod.snd

/-- Modelled from the spec: the parameter map param_start, param_start+1, …
attached to a value list in order. -/
def specParams : List GoVal → Nat → List (Str × GoVal)
  | [], _ => []
  | v :: rest, i => (paramName i, v) :: specParams rest (i + 1)

/-! ## Error classifier (internal/sql/error_mapper.go)

Pattern tables are embedded as lists in source order; the Go code stores
them in maps with unspecified iteration order, and every statement proved
below is insensitive to that order. All patterns are matched against the
already lower-cased message, as in MapError. -/

/-- A pattern of the shape a-dot-star-b. -/
def reDotStar2 (a b : String) : RE := reCat (reLit a) (reCat (RE.star reDot) (reLit b))

/-- One row of a classifier table: match test plus resulting code/message. -/
structure MapEntry where
  test : Str → Bool
  code : Nat
  message : String

/-- PostgreSQL backend-specific SQLSTATE fragments. -/
def pgErrorCodes : List (String × Nat × String) :=
  [("42601", sqlErrorSyntax, "Syntax error"),
   ("42501", sqlErrorPermission, "Insufficient privilege"),
   ("08000", sqlErrorConnection, "Connection exception"),
   ("08003", sqlErrorConnection, "Connection does not exist"),
   ("08006", sqlErrorConnection, "Connection failure"),
   ("40001", sqlErrorTransaction, "Serialization failure"),
   ("40P01", sqlErrorTransaction, "Deadlock detected"),
   ("57014", sqlErrorTimeout, "Query canceled")]

/-- PostgreSQL message-pattern families. -/
def pgPatterns : List MapEntry :=
  [⟨reSearch (reAlts [reLit "syntax error", reLit "invalid syntax", reLit "parse error"]),
    sqlErrorSyntax, "SQL syntax error"⟩,
   ⟨reSearch (reAlts [reLit "permission denied", reLit "access denied",
      reLit "insufficient privilege"]), sqlErrorPermission, "Permission denied"⟩,
   ⟨reSearch (reAlts [reLit "connection", reLit "connect", reLit "network",
      reLit "timeout", reLit "unreachable"]), sqlErrorConnection, "Database connection error"⟩,
   ⟨reSearch (reAlts [reLit "invalid parameter", reLit "missing parameter",
      reDotStar2 "parameter" "required"]), sqlErrorParams, "Parameter error"⟩,
   ⟨reSearch (reAlts [reLit "transaction", reLit "deadlock",
      reLit "serialization failure"]), sqlErrorTransaction, "Transaction error"⟩,
   ⟨reSearch (reAlts [reLit "timeout", reDotStar2 "time" "out",
      reLit "deadline exceeded"]), sqlErrorTimeout, "Query timeout"⟩]

/-- Oracle backend-specific ORA codes. -/
def oracleErrorCodes : List (String × Nat × String) :=
  [("ora-00900", sqlErrorSyntax, "Invalid SQL statement"),
   ("ora-00901", sqlErrorSyntax, "Invalid CREATE command"),
   ("ora-00902", sqlErrorSyntax, "Invalid datatype"),
   ("ora-00903", sqlErrorSyntax, "Invalid table name"),
   ("ora-00904", sqlErrorSyntax, "Invalid identifier"),
   ("ora-00942", sqlErrorPermission, "Table or view does not exist"),
   ("ora-00955", sqlErrorSyntax, "Name is already used by an existing object"),
   ("ora-01017", sqlErrorPermission, "Invalid username/password"),
   ("ora-01031", sqlErrorPermission, "Insufficient privileges"),
   ("ora-01034", sqlErrorConnection, "Oracle not available"),
   ("ora-01089", sqlErrorConnection, "Immediate shutdown in progress"),
   ("ora-03113", sqlErrorConnection, "End-of-file on communication channel"),
   ("ora-03114", sqlErrorConnection, "Not connected to Oracle"),
   ("ora-12154", sqlErrorConnection, "TNS: could not resolve the connect identifier"),
   ("ora-12170", sqlErrorTimeout, "TNS: connect timeout occurred"),
   ("ora-12571", sqlErrorTimeout, "TNS: packet writer failure"),
   ("ora-00060", sqlErrorTransaction, "Deadlock detected while waiting for resource"),
   ("ora-08177", sqlErrorTransaction, "Cannot serialize access for this transaction")]

/-- Oracle message-pattern families. -/
def oraclePatterns : List MapEntry :=
  [⟨reSearch (reAlts [reLit "syntax", reDotStar2 "invalid" "statement", reLit "parse"]),
    sqlErrorSyntax, "SQL syntax error"⟩,
   ⟨reSearch (reAlts [reLit "privilege", reLit "permission", reDotStar2 "access" "denied"]),
    sqlErrorPermission, "Permission denied"⟩,
   ⟨reSearch (reAlts [reLit "connection", reLit "connect", reLit "tns", reLit "network"]),
    sqlErrorConnection, "Database connection error"⟩,
   ⟨reSearch (reAlts [reLit "timeout", reDotStar2 "time" "out"]),
    sqlErrorTimeout, "Query timeout"⟩,
   ⟨reSearch (reAlts [reLit "deadlock", reLit "transaction", reLit "serialize"]),
    sqlErrorTransaction, "Transaction error"⟩]

/-- Generic message-pattern families. -/
def genericPatterns : List MapEntry :=
  [⟨reSearch (reAlts [reLit "syntax", reLit "parse", reDotStar2 "invalid" "sql"]),
    sqlErrorSyntax, "SQL syntax error"⟩,
   ⟨reSearch (reAlts [reLit "permission", reLit "privilege", reDotStar2 "access" "denied",
      reLit "unauthorized"]), sqlErrorPermission, "Permission denied"⟩,
   ⟨reSearch (reAlts [reLit "connection", reLit "connect", reLit "network",
      reLit "unreachable"]), sqlErrorConnection, "Database connection error"⟩,
   ⟨reSearch (reAlts [reLit "parameter", reLit "argument", reDotStar2 "missing" "value"]),
    sqlErrorParams, "Parameter error"⟩,
   ⟨reSearch (reAlts [reLit "timeout", reDotStar2 "time" "out", reLit "deadline"]),
    sqlErrorTimeout, "Query timeout"⟩,
   ⟨reSearch (reAlts [reLit "transaction", reLit "deadlock", reDotStar2 "lock" "timeout"]),
    sqlErrorTransaction, "Transaction error"⟩,
   ⟨reSearch (reAlts [reDotStar2 "too" "large", reDotStar2 "limit" "exceeded",
      reLit "memory"]), sqlErrorResultSize, "Result set too large"⟩]

/-- Common shape of the three mappers: backend codes by substring first,
then message patterns, then the default 4001 Database error. -/
def mapWithEntries (codes : List (String × Nat × String)) (pats : List MapEntry)
    (errMsg original : Str) : SQLErrorM :=
  match codes.find? (fun e => containsSub errMsg (sLit e.1)) with
  | some e => ⟨e.2.1, sLit e.2.2, original⟩
  | none =>
    match pats.find? (fun p => p.test errMsg) with
    | some p => ⟨p.code, sLit p.message, original⟩
    | none => ⟨sqlErrorSyntax, sLit "Database error", original⟩

/-- DatabaseErrorMapper.mapPostgreSQLError. -/
def mapPostgreSQLError (errMsg original : Str) : SQLErrorM :=
  mapWithEntries pgErrorCodes pgPatterns errMsg original

/-- DatabaseErrorMapper.mapOracleError. -/
def mapOracleError (errMsg original : Str) : SQLErrorM :=
  mapWithEntries oracleErrorCodes oraclePatterns errMsg original

/-- DatabaseErrorMapper.mapGenericError. -/
def mapGenericError (errMsg original : Str) : SQLErrorM :=
  mapWithEntries [] genericPatterns errMsg original

/-- DatabaseErrorMapper.MapError on a non-nil error with the given text. -/
def mapErrorM (dbType : Str) (errText : Str) : SQLErrorM :=
  let errMsg := toLowerStr errText
  if dbType = sLit "postgres" then mapPostgreSQLError errMsg errText
  else if dbType = sLit "oracle" then mapOracleError errMsg errText
  else mapGenericError errMsg errText

/-- The complete set of taxonomy codes. -/
def taxonomyCodes : List Nat :=
  [sqlErrorSyntax, sqlErrorParams, sqlErrorPermission, sqlErrorConnection,
   sqlErrorTransaction, sqlErrorTimeout, sqlErrorResultSize]

/-- Hypothesis shape for the default branch: no backend code fragment
occurs in the message and no pattern family matches. -/
def noMapperMatch (codes : List (String × Nat × String)) (pats : List MapEntry)
    (errMsg : Str) : Prop :=
  (∀ e ∈ codes, containsSub errMsg (sLit e.1) = false) ∧
  (∀ p ∈ pats, p.test errMsg = false)

/-! ## Security validator (SecurityValidator, package sql)

The nine injection-detection regexes are embedded one by one; each is
case-insensitive and is run against the raw query string, while every
other check runs against the trimmed lower-cased query. -/

/-- Pattern: union select preceded by whitespace or start. -/
def injPatUnionSelect : Str → Bool :=
  searchSpaceOrStart (reCat (reLitCI "union") (reCat (rePlus reSpace) (reLitCI "select")))

/-- Pattern: or 1 = 1 preceded by whitespace or start. -/
def injPatOrOneEqOne : Str → Bool :=
  searchSpaceOrStart (reCat (reLitCI "or") (reCat (rePlus reSpace) (reCat (reLitCI "1")
    (reCat (RE.star reSpace) (reCat (reChar '=') (reCat (RE.star reSpace) (reLitCI "1")))))))

/-- Pattern: and 1 = 1 preceded by whitespace or start. -/
def injPatAndOneEqOne : Str → Bool :=
  searchSpaceOrStart (reCat (reLitCI "and") (reCat (rePlus reSpace) (reCat (reLitCI "1")
    (reCat (RE.star reSpace) (reCat (reChar '=') (reCat (RE.star reSpace) (reLitCI "1")))))))

/-- Pattern: or word = word preceded by whitespace or start. -/
def injPatOrFieldEq : Str → Bool :=
  searchSpaceOrStart (reCat (reLitCI "or") (reCat (rePlus reSpace) (reCat (rePlus reWord)
    (reCat (RE.star reSpace) (reCat (reChar '=') (reCat (RE.star reSpace) (rePlus reWord)))))))

/-- Pattern: and word = word preceded by whitespace or start. -/
def injPatAndFieldEq : Str → Bool :=
  searchSpaceOrStart (reCat (reLitCI "and") (reCat (rePlus reSpace) (reCat (rePlus reWord)
    (reCat (RE.star reSpace) (reCat (reChar '=') (reCat (RE.star reSpace) (rePlus reWord)))))))

/-- Pattern: DDL keyword after a semicolon or whitespace, followed by
whitespace. -/
def injPatDdl : Str → Bool :=
  reSearch (reCat (reAlt (reChar ';') reSpace)
    (reCat (reAlts [reLitCI "drop", reLitCI "create", reLitCI "alter", reLitCI "truncate"])
      (rePlus reSpace)))

/-- Pattern: stored-procedure execution markers. -/
def injPatExec : Str → Bool :=
  reSearch (reAlts [reLitCI "exec", reLitCI "execute", reLitCI "sp_", reLitCI "xp_"])

/-- Pattern: script markers. -/
def injPatScript : Str → Bool :=
  reSearch (reAlts [reLitCI "script", reLitCI "javascript", reLitCI "vbscript"])

/-- Pattern: system-catalog markers. -/
def injPatSysCatalog : Str → Bool :=
  reSearch (reAlts [reLitCI "information_schema", reLitCI "sys.", reLitCI "pg_",
    reLitCI "mysql."])

/-- The compiled list from initSQLInjectionPatterns, in source order. -/
def sqlInjectionPatterns : List (Str → Bool) :=
  [injPatUnionSelect, injPatOrOneEqOne, injPatAndOneEqOne, injPatOrFieldEq,
   injPatAndFieldEq, injPatDdl, injPatExec, injPatScript, injPatSysCatalog]

/-- SecurityValidator.checkSQLInjection (on the raw query). -/
def checkSQLInjection (query : Str) : Except Str Unit :=
  if sqlInjectionPatterns.any (fun p => p query) then
    .error (sLit "potential SQL injection pattern detected")
  else .ok ()

/-- The dangerous keyword list from NewSecurityValidator. -/
def dangerousKeywords : List Str :=
  [sLit "drop", sLit "truncate", sLit "alter", sLit "create", sLit "grant", sLit "revoke",
   sLit "exec", sLit "execute", sLit "sp_", sLit "xp_", sLit "fn_",
   sLit "information_schema", sLit "pg_", sLit "mysql", sLit "sys", sLit "master",
   sLit "msdb", sLit "tempdb"]

/-- SecurityValidator.checkDangerousKeywords (on the cleaned query). -/
def checkDangerousKeywords (query : Str) : Except Str Unit :=
  if dangerousKeywords.any (fun k => containsSub query k) then
    .error (sLit "dangerous keyword not allowed")
  else .ok ()

/-- The keyword filter used when scanning for table names. -/
def securityIsKeyword (word : Str) : Bool :=
  [sLit "select", sLit "from", sLit "where", sLit "and", sLit "or",
   sLit "order", sLit "by", sLit "group", sLit "having", sLit "limit",
   sLit "offset", sLit "join", sLit "inner", sLit "left", sLit "right",
   sLit "full", sLit "outer", sLit "on", sLit "as", sLit "distinct",
   sLit "count", sLit "sum", sLit "avg", sLit "max", sLit "min"].contains (toLowerStr word)

/-- Scan of SecurityValidator.extractTableNames over the word list: a
FROM, JOIN, INTO or UPDATE keyword followed by another word yields that
word, lower-cased and trimmed of punctuation, unless it is a keyword. -/
def extractTablesGo : List Str → List Str
  | [] => []
  | [_] => []
  | w :: next :: rest =>
    let lw := toLowerStr w
    if lw = sLit "from" ∨ lw = sLit "join" ∨ lw = sLit "into" ∨ lw = sLit "update" then
      let tn := trimChars (toLowerStr next) (sLit "(),;")
      if tn ≠ [] ∧ ¬ securityIsKeyword tn then tn :: extractTablesGo (next :: rest)
      else extractTablesGo (next :: rest)
    else extractTablesGo (next :: rest)

/-- SecurityValidator.extractTableNames. -/
def extractTableNames (query : Str) : List Str := extractTablesGo (fieldsStr query)

/-- Table allow-list membership: the map is keyed by the lower-cased
configured names and probed with the lower-cased table. -/
def tableAllowed (cfg : SQLConfigM) (table : Str) : Bool :=
  (cfg.allowedTables.map toLowerStr).contains (toLowerStr table)

/-- Action allow-list membership, same keying as the tables. -/
def actionAllowed (cfg : SQLConfigM) (action : Str) : Bool :=
  (cfg.allowedActions.map toLowerStr).contains action

/-- SecurityValidator.checkTablePermission (on the cleaned query). -/
def checkTablePermission (cfg : SQLConfigM) (query : Str) : Except Str Unit :=
  let tables := extractTableNames query
  if tables.length = 0 then .error (sLit "no tables found in query")
  else
    match tables.find? (fun t => ¬ tableAllowed cfg t) with
    | some t => .error (sLit "access to table " ++ t ++ sLit " is not allowed")
    | none => .ok ()

/-- Scan inside a WITH statement for the first operation verb; gives up
after index 11 and defaults to select, as the Go loop does. -/
def withActionScan : List Str → Nat → Str
  | [], _ => sLit "select"
  | w :: rest, i =>
    let lw := toLowerStr w
    if lw = sLit "select" ∨ lw = sLit "insert" ∨ lw = sLit "update" ∨ lw = sLit "delete" then lw
    else if i > 10 then sLit "select"
    else withActionScan rest (i + 1)

/-- SecurityValidator.extractSQLAction (on the cleaned query). -/
def extractSQLAction (query : Str) : Str :=
  match fieldsStr query with
  | [] => []
  | w0 :: rest =>
    let firstWord := toLowerStr w0
    if firstWord = sLit "select" then sLit "select"
    else if firstWord = sLit "insert" then sLit "insert"
    else if firstWord = sLit "update" then sLit "update"
    else if firstWord = sLit "delete" then sLit "delete"
    else if firstWord = sLit "with" then withActionScan (w0 :: rest) 0
    else firstWord

/-- SecurityValidator.checkActionPermission (on the cleaned query). -/
def checkActionPermission (cfg : SQLConfigM) (query : Str) : Except Str Unit :=
  let action := extractSQLAction query
  if action = [] then .error (sLit "unable to determine SQL action")
  else if ¬ actionAllowed cfg action then .error (sLit "action is not allowed")
  else .ok ()

/-- The literal fragments of containsSQLInjection for parameter values. -/
def paramDangerousFragments : List Str :=
  [[squote], sLit "\"", sLit ";", sLit "--", sLit "/*", sLit "*/",
   sLit "union", sLit "select", sLit "insert", sLit "update", sLit "delete",
   sLit "drop", sLit "create", sLit "alter", sLit "exec", sLit "execute",
   sLit "script", sLit "javascript"]

/-- SecurityValidator.containsSQLInjection on a parameter string. -/
def paramContainsInjection (s : Str) : Bool :=
  paramDangerousFragments.any (fun f => containsSub (toLowerStr s) f)

/-- SecurityValidator.validateParameterValue. -/
def validateParameterValue (key : Str) (v : GoVal) : Except Str Unit :=
  if key = [] then .error (sLit "parameter key cannot be empty")
  else
    match v with
    | .vstr s =>
      if s.length > 10000 then .error (sLit "string parameter too long")
      else if paramContainsInjection s then
        .error (sLit "parameter contains potential SQL injection")
      else .ok ()
    | _ => .ok ()

/-- SecurityValidator.validateParameters. -/
def validateParameters (params : List (Str × GoVal)) : Except Str Unit :=
  if params.length > 100 then .error (sLit "too many parameters")
  else
    match params.find? (fun p => ¬ (validateParameterValue p.1 p.2).isOk) with
    | some p =>
      match validateParameterValue p.1 p.2 with
      | .error e => .error (sLit "invalid parameter: " ++ e)
      | .ok _ => .ok ()
    | none => .ok ()

/-- SecurityValidator.ValidateQuery: the full chain with its message
prefixes, in source order. -/
def securityValidateQuery (cfg : SQLConfigM) (query : Str) (params : List (Str × GoVal)) :
    Except Str Unit :=
  if query = [] then .error (sLit "query cannot be empty")
  else
    let cleanQuery := trimSpace (toLowerStr query)
    match checkSQLInjection query with
    | .error e => .error (sLit "SQL injection detected: " ++ e)
    | .ok _ =>
    match checkDangerousKeywords cleanQuery with
    | .error e => .error (sLit "dangerous keywords detected: " ++ e)
    | .ok _ =>
    match checkActionPermission cfg cleanQuery with
    | .error e => .error (sLit "action not allowed: " ++ e)
    | .ok _ =>
    match checkTablePermission cfg cleanQuery with
    | .error e => .error (sLit "table access denied: " ++ e)
    | .ok _ =>
    match validateParameters params with
    | .error e => .error (sLit "parameter validation failed: " ++ e)
    | .ok _ => .ok ()

/-- SecurityValidator.IsSelectQuery. -/
def isSelectQuery (query : Str) : Bool :=
  (sLit "select").isPrefixOf (trimSpace (toLowerStr query))

/-! ## Structure validator (internal/sql/validator.go) -/

/-- Forbidden pattern: time-delay functions. -/
def forbPatDelay : Str → Bool :=
  reSearch (reCat (reAlts [reLitCI "benchmark", reLitCI "sleep", reLitCI "waitfor",
    reLitCI "delay"]) (reCat (RE.star reSpace) (reChar '(')))

/-- Forbidden pattern: file operations. -/
def forbPatFileOps : Str → Bool :=
  reSearch (reAlts [reLitCI "load_file",
    reCat (reLitCI "into") (reCat (rePlus reSpace) (reLitCI "outfile")),
    reCat (reLitCI "into") (reCat (rePlus reSpace) (reLitCI "dumpfile"))])

/-- Forbidden pattern: system variables. -/
def forbPatSysVar : Str → Bool :=
  reSearch (reAlt (reLit "@@") (reCat (reChar '@') (rePlus reWord)))

/-- Forbidden pattern: encoding functions. -/
def forbPatEncoding : Str → Bool :=
  reSearch (reCat (reAlts [reLitCI "char", reLitCI "ascii", reLitCI "hex", reLitCI "unhex",
    reLitCI "bin", reLitCI "oct"]) (reCat (RE.star reSpace) (reChar '(')))

/-- Forbidden pattern: system information functions. -/
def forbPatSysInfo : Str → Bool :=
  reSearch (reCat (reAlts [reLitCI "version", reLitCI "user", reLitCI "database",
    reLitCI "schema"]) (reCat (RE.star reSpace) (reCat (reChar '(')
      (reCat (RE.star reSpace) (reChar ')')))))

/-- Forbidden pattern: concatenating aggregate functions. -/
def forbPatConcat : Str → Bool :=
  reSearch (reCat (reAlts [reLitCI "concat_ws", reLitCI "group_concat", reLitCI "string_agg"])
    (reCat (RE.star reSpace) (reChar '(')))

/-- Forbidden pattern: conditional with embedded subquery. -/
def forbPatCondSubquery : Str → Bool :=
  reSearch (reCat (reAlts [reLitCI "if", reLitCI "ifnull", reLitCI "nullif", reLitCI "case"])
    (reCat (RE.star reSpace) (reCat (reChar '(') (reCat (RE.star reDot) (reLitCI "select")))))

/-- Forbidden pattern: doubled operators. -/
def forbPatBitOps : Str → Bool :=
  reSearch (reAlts [reLit "||", reLit "&&", reLit "<<", reLit ">>"])

/-- The compiled list from initForbiddenPatterns, in source order. -/
def forbiddenPatterns : List (Str → Bool) :=
  [forbPatDelay, forbPatFileOps, forbPatSysVar, forbPatEncoding, forbPatSysInfo,
   forbPatConcat, forbPatCondSubquery, forbPatBitOps]

/-- QueryValidator.checkForbiddenPatterns (on the raw query). -/
def checkForbiddenPatterns (query : Str) : Except Str Unit :=
  if forbiddenPatterns.any (fun p => p query) then
    .error (sLit "query contains forbidden pattern")
  else .ok ()

/-- QueryValidator.calculateQueryComplexity: weighted substring counts
over the lower-cased query, term for term as in the source. -/
def calculateQueryComplexity (query : Str) : Nat :=
  let lq := toLowerStr query
  1
  + countSub lq (sLit "join") * 5
  + countSub lq (sLit "left join") * 3
  + countSub lq (sLit "right join") * 3
  + countSub lq (sLit "inner join") * 3
  + countSub lq (sLit "outer join") * 4
  + countSub lq (sLit "select") * 3
  + countSub lq (sLit "where") * 2
  + countSub lq (sLit "and") * 1
  + countSub lq (sLit "or") * 2
  + countSub lq (sLit "group by") * 3
  + countSub lq (sLit "order by") * 2
  + countSub lq (sLit "having") * 3
  + countSub lq (sLit "count(") * 2
  + countSub lq (sLit "sum(") * 2
  + countSub lq (sLit "avg(") * 2
  + countSub lq (sLit "max(") * 2
  + countSub lq (sLit "min(") * 2
  + countSub lq (sLit "union") * 5
  + countSub lq (sLit "with") * 4

/-- Word characters as in the function-extraction regex. -/
def isWordChar (c : Char) : Bool := c.isAlpha || c.isDigit || c = '_'

/-- RE2 whitespace as a boolean test (used when skipping the gap in the
function-extraction regex). -/
def isReSpaceChar (c : Char) : Bool :=
  c = '\t' || c = '\n' || c = Char.ofNat 12 || c = '\r' || c = ' '

/-- Maximal leading run of word characters. -/
def takeWordRun : Str → Str × Str
  | [] => ([], [])
  | c :: rest =>
    if isWordChar c then
      let (r, rest2) := takeWordRun rest
      (c :: r, rest2)
    else ([], c :: rest)

/-- Fuel-driven scan realizing FindAllStringSubmatch on the pattern
word-run, optional whitespace, open parenthesis: successive non-overlapping
matches, each capturing its word run. -/
def extractFunsAux : Nat → Str → List Str
  | 0, _ => []
  | _, [] => []
  | Nat.succ fuel, c :: rest =>
    if isWordChar c then
      let (run, rest2) := takeWordRun (c :: rest)
      let afterWs := rest2.dropWhile isReSpaceChar
      match afterWs with
      | '(' :: rest3 => toLowerStr run :: extractFunsAux fuel rest3
      | _ => extractFunsAux fuel rest2
    else extractFunsAux fuel rest

/-- The keyword filter of QueryValidator.isSQLKeyword. -/
def validatorIsSQLKeyword (word : Str) : Bool :=
  [sLit "select", sLit "from", sLit "where", sLit "and", sLit "or",
   sLit "order", sLit "by", sLit "group", sLit "having", sLit "limit",
   sLit "offset", sLit "join", sLit "inner", sLit "left", sLit "right",
   sLit "full", sLit "outer", sLit "on", sLit "as", sLit "distinct",
   sLit "union", sLit "all", sLit "exists", sLit "in", sLit "not",
   sLit "is", sLit "null", sLit "like", sLit "between", sLit "case",
   sLit "when", sLit "then", sLit "else", sLit "end", sLit "with"].contains (toLowerStr word)

/-- QueryValidator.extractFunctions: function-call names that are not SQL
keywords. -/
def extractFunctions (query : Str) : List Str :=
  (extractFunsAux (query.length + 1) query).filter (fun f => ¬ validatorIsSQLKeyword f)

/-- The configured function allow-list from NewQueryValidator. -/
def allowedFunctions : List Str :=
  [sLit "count", sLit "sum", sLit "avg", sLit "max", sLit "min",
   sLit "upper", sLit "lower", sLit "trim", sLit "length", sLit "substr",
   sLit "substring", sLit "concat", sLit "replace", sLit "like",
   sLit "abs", sLit "round", sLit "ceil", sLit "floor", sLit "mod",
   sLit "now", sLit "current_date", sLit "current_time", sLit "current_timestamp",
   sLit "date", sLit "time", sLit "year", sLit "month", sLit "day",
   sLit "case", sLit "when", sLit "then", sLit "else", sLit "end",
   sLit "coalesce", sLit "nullif", sLit "isnull", sLit "ifnull"]

/-- QueryValidator.validateFunctions. -/
def validateFunctions (query : Str) : Except Str Unit :=
  if (extractFunctions query).any (fun f => ¬ allowedFunctions.contains (toLowerStr f)) then
    .error (sLit "function is not allowed")
  else .ok ()

/-- QueryValidator.checkParenthesesBalance. -/
def parenScan : Str → Int → Except Str Unit
  | [], n => if n ≠ 0 then .error (sLit "unmatched opening parenthesis") else .ok ()
  | c :: rest, n =>
    if c = '(' then parenScan rest (n + 1)
    else if c = ')' then
      if n - 1 < 0 then .error (sLit "unmatched closing parenthesis")
      else parenScan rest (n - 1)
    else parenScan rest n

/-- QueryValidator.checkQuotesBalance: the stateful scan with its
escaped-quote skip, carrying the previous character. -/
def quotesScan : Str → Option Char → Bool → Bool → Nat → Nat → Except Str Unit
  | [], _, _, _, sc, dc =>
    if sc % 2 ≠ 0 then .error (sLit "unmatched single quote")
    else if dc % 2 ≠ 0 then .error (sLit "unmatched double quote")
    else .ok ()
  | c :: rest, prev, inS, inD, sc, dc =>
    if c = squote then
      if ¬ inD then
        if prev = some '\\' then quotesScan rest (some c) inS inD sc dc
        else quotesScan rest (some c) (¬ inS) inD (sc + 1) dc
      else quotesScan rest (some c) inS inD sc dc
    else if c = '"' then
      if ¬ inS then
        if prev = some '\\' then quotesScan rest (some c) inS inD sc dc
        else quotesScan rest (some c) inS (¬ inD) sc (dc + 1)
      else quotesScan rest (some c) inS inD sc dc
    else quotesScan rest (some c) inS inD sc dc

/-- QueryValidator.checkQuotesBalance entry point. -/
def checkQuotesBalance (query : Str) : Except Str Unit :=
  quotesScan query none false false 0 0

/-- The simple-expression patterns of isSimpleExpressionQuery (run on the
already lower-cased query, so the literals are exact). -/
def simpleExprPatterns : List (Str → Bool) :=
  [reSearch (reCat (reLit "select") (reCat (rePlus reSpace) (rePlus reDigit))),
   reSearch (reCat (reLit "select") (reCat (rePlus reSpace) (reLit "now()"))),
   reSearch (reCat (reLit "select") (reCat (rePlus reSpace)
     (reCat (reChar squote) (reCat (RE.star (.cls fun c => !(c = squote)))
       (reChar squote))))),
   reSearch (reCat (reLit "select") (reCat (rePlus reSpace)
     (reCat (reChar '"') (reCat (RE.star (.cls fun c => !(c = '"'))) (reChar '"'))))),
   reSearch (reCat (reLit "select") (reCat (rePlus reSpace) (reLit "current_")))]

/-- QueryValidator.isSimpleExpressionQuery. -/
def isSimpleExpressionQuery (query : Str) : Bool :=
  simpleExprPatterns.any (fun p => p query)

/-- QueryValidator.checkBasicSQLStructure. -/
def checkBasicSQLStructure (query : Str) : Except Str Unit :=
  let lowerQuery := toLowerStr (trimSpace query)
  let starters := [sLit "select", sLit "insert", sLit "update", sLit "delete", sLit "with"]
  if ¬ starters.any (fun st => st.isPrefixOf lowerQuery) then
    .error (sLit "query must start with a valid SQL keyword")
  else if (sLit "select").isPrefixOf lowerQuery
      ∧ ¬ containsSub lowerQuery (sLit "from")
      ∧ ¬ isSimpleExpressionQuery lowerQuery then
    .error (sLit "SELECT query must include FROM clause or be a simple expression")
  else .ok ()

/-- QueryValidator.validateBasicSyntax. -/
def validateBasicSyntax (query : Str) : Except Str Unit :=
  match parenScan query 0 with
  | .error e => .error (sLit "parentheses mismatch: " ++ e)
  | .ok _ =>
  match checkQuotesBalance query with
  | .error e => .error (sLit "quotes mismatch: " ++ e)
  | .ok _ =>
  match checkBasicSQLStructure query with
  | .error e => .error (sLit "invalid SQL structure: " ++ e)
  | .ok _ => .ok ()

/-- QueryValidator.ValidateQueryStructure. -/
def validateQueryStructure (query : Str) : Except Str Unit :=
  if query = [] then .error (sLit "query cannot be empty")
  else if query.length > 10000 then .error (sLit "query too long")
  else if calculateQueryComplexity query > 100 then .error (sLit "query too complex")
  else
    match checkForbiddenPatterns query with
    | .error e => .error (sLit "forbidden pattern detected: " ++ e)
    | .ok _ =>
    match validateFunctions query with
    | .error e => .error (sLit "function validation failed: " ++ e)
    | .ok _ =>
    match validateBasicSyntax query with
    | .error e => .error (sLit "syntax validation failed: " ++ e)
    | .ok _ => .ok ()

/-! ## Execution engine validation gates (SQLEngine, package sql)

ExecuteQuery and ExecuteSQL share the same two validation stages; the read
path then refuses non-SELECT statements, and the write path refuses when
raw SQL is disabled. The gates stop where the engine would hand the
statement to the driver. -/

/-- The pre-execution portion of SQLEngine.ExecuteQuery. -/
def executeQueryGate (cfg : SQLConfigM) (query : Str) (params : List (Str × GoVal)) :
    Except Str Unit :=
  match validateQueryStructure query with
  | .error e => .error (sLit "query structure validation failed: " ++ e)
  | .ok _ =>
  match securityValidateQuery cfg query params with
  | .error e => .error (sLit "security validation failed: " ++ e)
  | .ok _ =>
  if ¬ isSelectQuery query then
    .error (sLit "only SELECT queries are allowed in ExecuteQuery")
  else .ok ()

/-- The pre-execution portion of SQLEngine.ExecuteSQL. -/
def executeSQLGate (cfg : SQLConfigM) (query : Str) (params : List (Str × GoVal)) :
    Except Str Unit :=
  match validateQueryStructure query with
  | .error e => .error (sLit "query structure validation failed: " ++ e)
  | .ok _ =>
  match securityValidateQuery cfg query params with
  | .error e => .error (sLit "security validation failed: " ++ e)
  | .ok _ =>
  if ¬ cfg.enableRawSQL then .error (sLit "raw SQL execution is disabled")
  else .ok ()

/-! ## Result materialization (MemoryOptimizer and ExecuteQuery, lines
166 to 178 of the engine)

Rows are abstract column-to-value maps; the driver interaction itself is
outside the embedding, so this stage starts from the rows the driver
produced. -/

/-- A materialized result row. -/
abbrev RowM := List (Str × GoVal)

/-- MemoryOptimizer.OptimizeResultSet: keep at most maxResultSize rows. -/
def optimizeResultSet (maxResultSize : Nat) (rows : List RowM) : List RowM :=
  if rows.length ≤ maxResultSize then rows else rows.take maxResultSize

/-- QueryResult as returned by the read path. -/
structure QueryResultM where
  columns : List Str
  rows : List RowM
  total : Int
deriving DecidableEq

/-- The tail of SQLEngine.ExecuteQuery after parsing: memory optimization,
total bookkeeping, and the result-size check, in source order. -/
def executeQueryResultStage (cfg : SQLConfigM) (columns : List Str) (rows : List RowM) :
    Except Str QueryResultM :=
  let optimized := optimizeResultSet cfg.maxResultSize rows
  let total : Int := optimized.length
  if optimized.length > cfg.maxResultSize then
    .error (sLit "result set too large: " ++ natRepr optimized.length
      ++ sLit " rows (max: " ++ natRepr cfg.maxResultSize ++ sLit ")")
  else .ok ⟨columns, optimized, total⟩

/-! ## Batch execution (SQLEngine.ExecuteBatch and the service layer)

The backend driver is abstracted as a state transformer: executing one
statement either produces a successor database state with an affected-row
count, or a driver error message. Transactions carry the state they began
from; rollback returns to it and commit publishes the working state. -/

/-- An abstract driver statement execution over database states. -/
def DriverOp (σ : Type) := σ → Except Str (σ × Int)

/-- BatchQuery, paired with the driver effect its SQL denotes. -/
structure BatchQueryM (σ : Type) where
  sql : Str
  params : List (Str × GoVal)
  op : DriverOp σ

/-- A per-statement execution result. -/
structure ExecuteResultM where
  affectedRows : Int
deriving DecidableEq

/-- BatchResult from the engine. -/
structure BatchResultM where
  results : List ExecuteResultM
  totalAffectedRows : Int
  success : Bool
deriving DecidableEq

/-- An open transaction: the state it began from and its working state. -/
structure TxM (σ : Type) where
  base : σ
  cur : σ

/-- BeginTx. -/
def txBegin {σ : Type} (db : σ) : TxM σ := ⟨db, db⟩

/-- Rollback: the database is back at the state the transaction began
from. -/
def txRollback {σ : Type} (t : TxM σ) : σ := t.base

/-- Commit: the working state becomes visible. -/
def txCommit {σ : Type} (t : TxM σ) : σ := t.cur

/-- tx.Exec: run one statement against the working state. -/
def txExec {σ : Type} (t : TxM σ) (op : DriverOp σ) : Except Str (TxM σ × Int) :=
  match op t.cur with
  | .error e => .error e
  | .ok (s, n) => .ok (⟨t.base, s⟩, n)

/-- The loop of executeBatchWithTransaction: statements in input order,
stopping at the first error. -/
def txLoop {σ : Type} : List (BatchQueryM σ) → TxM σ → Nat → List ExecuteResultM → Int →
    TxM σ × Except Str (List ExecuteResultM × Int)
  | [], t, _, acc, total => (t, .ok (acc, total))
  | q :: rest, t, i, acc, total =>
    match txExec t q.op with
    | .error e =>
      (t, .error (sLit "failed to execute query " ++ natRepr i ++ sLit ": " ++ e))
    | .ok (t2, n) => txLoop rest t2 (i + 1) (acc ++ [⟨n⟩]) (total + n)

/-- SQLEngine.executeBatchWithTransaction: begin, run the loop, roll back
on error and commit on success; the first component is the resulting
database state. -/
def executeBatchWithTransaction {σ : Type} (db : σ) (queries : List (BatchQueryM σ)) :
    σ × Except Str BatchResultM :=
  let t := txBegin db
  match txLoop queries t 0 [] 0 with
  | (t2, .error e) => (txRollback t2, .error e)
  | (t2, .ok (results, total)) => (txCommit t2, .ok ⟨results, total, true⟩)

/-- The loop of executeBatchWithoutTransaction: every statement commits
directly against the database; the first error stops the loop with the
states of the already executed statements kept. -/
def nonTxLoop {σ : Type} : List (BatchQueryM σ) → σ → Nat → List ExecuteResultM → Int →
    σ × Except Str (List ExecuteResultM × Int)
  | [], s, _, acc, total => (s, .ok (acc, total))
  | q :: rest, s, i, acc, total =>
    match q.op s with
    | .error e =>
      (s, .error (sLit "failed to execute query " ++ natRepr i ++ sLit ": " ++ e))
    | .ok (s2, n) => nonTxLoop rest s2 (i + 1) (acc ++ [⟨n⟩]) (total + n)

/-- SQLEngine.executeBatchWithoutTransaction. -/
def executeBatchWithoutTransaction {σ : Type} (db : σ) (queries : List (BatchQueryM σ)) :
    σ × Except Str BatchResultM :=
  match nonTxLoop queries db 0 [] 0 with
  | (s, .error e) => (s, .error e)
  | (s, .ok (results, total)) => (s, .ok ⟨results, total, true⟩)

/-- The pre-validation loop at the top of ExecuteBatch. -/
def prevalidateBatch {σ : Type} (cfg : SQLConfigM) : List (BatchQueryM σ) → Nat →
    Except Str Unit
  | [], _ => .ok ()
  | q :: rest, i =>
    match securityValidateQuery cfg q.sql q.params with
    | .error e =>
      .error (sLit "security validation failed for query " ++ natRepr i ++ sLit ": " ++ e)
    | .ok _ => prevalidateBatch cfg rest (i + 1)

/-- SQLEngine.ExecuteBatch: feature gate, emptiness check, pre-validation,
then the transactional dispatch (transactional requests fall back to the
non-transactional path when transactions are disabled). -/
def engineExecuteBatch {σ : Type} (cfg : SQLConfigM) (db : σ)
    (queries : List (BatchQueryM σ)) (transactional : Bool) : σ × Except Str BatchResultM :=
  if ¬ cfg.enableBatch then (db, .error (sLit "batch operations are disabled"))
  else if queries.length = 0 then (db, .error (sLit "no queries provided"))
  else
    match prevalidateBatch cfg queries 0 with
    | .error e => (db, .error e)
    | .ok _ =>
      if transactional ∧ cfg.enableTransactions then executeBatchWithTransaction db queries
      else executeBatchWithoutTransaction db queries

/-! ## Service layer batch response shaping (part of sqlService) -/

/-- SQLOperationResult. -/
structure SQLOperationResultM where
  index : Nat
  success : Bool
  affectedRows : Int
deriving DecidableEq

/-- BatchSQLResponse. -/
structure BatchSQLResponseM where
  success : Bool
  message : Str
  results : List SQLOperationResultM
  error : Option SQLErrorM
  totalAffectedRows : Int
  executedCount : Nat
  failedCount : Nat
deriving DecidableEq

/-- model.NewBatchSQLErrorResponse: only Success, Error and Timestamp are
set; every other field keeps its zero value. -/
def newBatchSQLErrorResponse (code : Nat) (message details : Str) : BatchSQLResponseM :=
  { success := false
    message := []
    results := []
    error := some ⟨code, message, details⟩
    totalAffectedRows := 0
    executedCount := 0
    failedCount := 0 }

/-- sqlService.handleBatchExecutionError; the helper contains in the
source is an ordinary case-sensitive substring test despite its comment. -/
def handleBatchExecutionError (errMsg : Str) : BatchSQLResponseM :=
  if containsSub errMsg (sLit "transaction") then
    newBatchSQLErrorResponse sqlErrorTransaction (sLit "Transaction failed") errMsg
  else
    newBatchSQLErrorResponse sqlErrorSyntax (sLit "Batch execution error") errMsg

/-- The result-array loop of sqlService.buildBatchResponse. -/
def buildBatchResults : List ExecuteResultM → Nat → List SQLOperationResultM
  | [], _ => []
  | r :: rest, i => ⟨i, true, r.affectedRows⟩ :: buildBatchResults rest (i + 1)

/-- sqlService.buildBatchResponse. -/
def buildBatchResponse (r : BatchResultM) : BatchSQLResponseM :=
  let results := buildBatchResults r.results 0
  { success := r.success
    message := sLit "Batch executed successfully"
    results := results
    error := none
    totalAffectedRows := r.totalAffectedRows
    executedCount := results.length
    failedCount := 0 }

/-- sqlService.ExecuteBatch after request validation and query building:
the engine is invoked with the transactional flag only; the
continue_on_error field of the request is passed nowhere. -/
def serviceExecuteBatch {σ : Type} (cfg : SQLConfigM) (db : σ)
    (queries : List (BatchQueryM σ)) (transactional _continueOnError : Bool) :
    σ × BatchSQLResponseM :=
  match engineExecuteBatch cfg db queries transactional with
  | (s, .error e) => (s, handleBatchExecutionError e)
  | (s, .ok r) => (s, buildBatchResponse r)

end SqlToApi

namespace SqlToApi

/-! ## Auxiliary definitions used by the statements below -/

/-- The backend-code table MapError consults for a database type. -/
def mapperCodesFor (dbType : Str) : List (String × Nat × String) :=
  if dbType = sLit "postgres" then pgErrorCodes
  else if dbType = sLit "oracle" then oracleErrorCodes
  else []

/-- The pattern table MapError consults for a database type. -/
def mapperPatternsFor (dbType : Str) : List MapEntry :=
  if dbType = sLit "postgres" then pgPatterns
  else if dbType = sLit "oracle" then oraclePatterns
  else genericPatterns

/-- Sequential execution of a list of statements, each committing
directly, succeeding only if all of them do (used to phrase which prefix
of a batch has been applied). -/
def runPrefix {σ : Type} : List (BatchQueryM σ) → σ → Option σ
  | [], s => some s
  | q :: rest, s =>
    match q.op s with
    | .error _ => none
    | .ok (s2, _) => runPrefix rest s2

/-- A configuration allowing the items table and the select and insert
actions, with everything enabled; used for concrete instances. -/
def demoConfig : SQLConfigM :=
  ⟨[sLit "items"], [sLit "select", sLit "insert"], true, true, true, 1000⟩

/-- A CTE read statement; it passes both validators under demoConfig. -/
def withQuery : Str := sLit "with cte as (select id from items) select id from items"

/-- A plain read statement; it passes both validators under demoConfig. -/
def plainSelect : Str := sLit "select id from items"

/-- A structured update used to instantiate the builder claims. -/
def demoUpdateQuery : StructuredQueryM :=
  { table := sLit "items"
    action := sLit "update"
    fields := []
    whereMap := [(sLit "id", GoVal.vint 7)]
    dataMap := [(sLit "name", GoVal.vstr (sLit "x")), (sLit "qty", GoVal.vint 2)]
    groupBy := []
    havingMap := []
    orderBy := []
    limit := 0 }

/-- The SQL the builder emits for demoUpdateQuery under postgres. -/
def demoUpdateSql : Str := sLit "UPDATE items SET name = $1, qty = $2 WHERE id = $3"

/-- The parameter map the builder emits for demoUpdateQuery. -/
def demoUpdateParams : List (Str × GoVal) :=
  [(sLit "param_1", GoVal.vstr (sLit "x")), (sLit "param_2", GoVal.vint 2),
   (sLit "param_3", GoVal.vint 7)]

/-- A structured delete with a condition. -/
def demoDeleteQuery : StructuredQueryM :=
  { table := sLit "items"
    action := sLit "delete"
    fields := []
    whereMap := [(sLit "id", GoVal.vint 5)]
    dataMap := []
    groupBy := []
    havingMap := []
    orderBy := []
    limit := 0 }

/-- The same delete with an empty condition map. -/
def demoDeleteNoWhere : StructuredQueryM :=
  { demoDeleteQuery with whereMap := [] }

/-- A batch statement whose driver effect succeeds, adding a row. -/
def demoInsertOp : BatchQueryM Int :=
  ⟨sLit "insert into items (name) values ($1)", [], fun s => .ok (s + 1, 1)⟩

/-- A batch statement whose driver effect fails with a unique violation. -/
def demoFailOp : BatchQueryM Int :=
  ⟨sLit "insert into items (name) values ($1)", [],
   fun _ => .error (sLit "duplicate key value violates unique constraint")⟩

/-- The batch error message produced when demoFailOp fails at index 1. -/
def demoTxError : Str :=
  sLit "failed to execute query 1: duplicate key value violates unique constraint"

/-- The batch error message produced when demoFailOp fails at index 0. -/
def demoNonTxError : Str :=
  sLit "failed to execute query 0: duplicate key value violates unique constraint"

/-! ## Helper lemmas -/

theorem containsSub_eq_true_iff (hay needle : Str) :
    containsSub hay needle = true ↔ needle <:+: hay := by
  induction hay with
  | nil =>
    simp [containsSub, List.isPrefixOf_iff_prefix, List.prefix_nil, List.infix_nil]
  | cons c rest ih =>
    simp only [containsSub, Bool.or_eq_true, List.isPrefixOf_iff_prefix, ih,
      List.infix_cons_iff]

theorem containsSub_of_infix {hay needle : Str} (h : needle <:+: hay) :
    containsSub hay needle = true :=
  (containsSub_eq_true_iff hay needle).2 h

theorem joinSep_mem_part {sep : Str} {xs : List Str} {x : Str} (h : x ∈ xs) :
    x <:+: joinSep sep xs := by
  induction xs with
  | nil => cases h
  | cons y ys ih =>
    cases ys with
    | nil =>
      rcases List.mem_singleton.mp h with rfl
      exact List.infix_rfl
    | cons z zs =>
      rcases List.mem_cons.mp h with rfl | hmem
      · exact ((List.prefix_append x (sep ++ joinSep sep (z :: zs))).trans
          (by simp [joinSep, List.append_assoc])).isInfix
      · exact (ih hmem).trans (by
          have : joinSep sep (z :: zs) <:+ y ++ sep ++ joinSep sep (z :: zs) := by
            simpa [List.append_assoc] using
              List.suffix_append (y ++ sep) (joinSep sep (z :: zs))
          exact this.isInfix)

theorem specParams_length (vs : List GoVal) (i : Nat) :
    (specParams vs i).length = vs.length := by
  induction vs generalizing i with
  | nil => rfl
  | cons v rest ih => simp [specParams, ih]

theorem specParams_append (a b : List GoVal) (i : Nat) :
    specParams (a ++ b) i = specParams a i ++ specParams b (i + a.length) := by
  induction a generalizing i with
  | nil => simp [specParams]
  | cons v rest ih =>
    have harith : i + 1 + rest.length = i + (rest.length + 1) := by omega
    simp [specParams, ih, harith]

theorem buildWhereAux_params (dbType : Str) (conds : List (Str × GoVal)) (i : Nat) :
    (buildWhereAux dbType conds i).2 = specParams (conds.map Prod.snd) i := by
  induction conds generalizing i with
  | nil => rfl
  | cons p rest ih =>
    cases p with
    | mk f v => simp [buildWhereAux, specParams, ih]

theorem buildWhereAux_clause_mem (dbType : Str) (conds : List (Str × GoVal)) (i : Nat) :
    ∀ j, j < conds.length →
      ∃ c, (c ++ sLit " = " ++ getParameterPlaceholder dbType (i + j))
        ∈ (buildWhereAux dbType conds i).1 := by
  induction conds generalizing i with
  | nil => intro j hj; cases hj
  | cons p rest ih =>
    intro j hj
    cases p with
    | mk f v =>
      cases j with
      | zero =>
        refine ⟨f, ?_⟩
        simp [buildWhereAux]
      | succ j =>
        have hj2 : j < rest.length := by simpa using Nat.lt_of_succ_lt_succ hj
        rcases ih (i + 1) j hj2 with ⟨c, hc⟩
        refine ⟨c, ?_⟩
        have harith : i + 1 + j = i + (j + 1) := by omega
        rw [harith] at hc
        simp only [buildWhereAux, List.mem_cons]
        exact Or.inr (by simpa [List.append_assoc] using hc)

theorem buildWhere_join_contains (dbType : Str) (sep : Str) (conds : List (Str × GoVal))
    (i : Nat) {j : Nat} (hj : j < conds.length) :
    getParameterPlaceholder dbType (i + j) <:+:
      joinSep sep (buildWhereAux dbType conds i).1 := by
  rcases buildWhereAux_clause_mem dbType conds i j hj with ⟨c, hc⟩
  refine List.IsInfix.trans ?_ (joinSep_mem_part hc)
  exact ⟨c ++ sLit " = ", [], by simp⟩

theorem insertLoopAux_params (dbType : Str) (ds : List (Str × GoVal)) (i : Nat) :
    (insertLoopAux dbType ds i).2.2 = specParams (ds.map Prod.snd) i := by
  induction ds generalizing i with
  | nil => rfl
  | cons p rest ih =>
    cases p with
    | mk f v => simp [insertLoopAux, specParams, ih]

theorem insertLoopAux_placeholder_mem (dbType : Str) (ds : List (Str × GoVal)) (i : Nat) :
    ∀ j, j < ds.length →
      getParameterPlaceholder dbType (i + j) ∈ (insertLoopAux dbType ds i).2.1 := by
  induction ds generalizing i with
  | nil => intro j hj; cases hj
  | cons p rest ih =>
    intro j hj
    cases p with
    | mk f v =>
      cases j with
      | zero => simp [insertLoopAux]
      | succ j =>
        have hj2 : j < rest.length := by simpa using Nat.lt_of_succ_lt_succ hj
        have := ih (i + 1) j hj2
        have harith : i + 1 + j = i + (j + 1) := by omega
        rw [harith] at this
        simp [insertLoopAux, this]

theorem txLoop_base {σ : Type} (queries : List (BatchQueryM σ)) :
    ∀ (t : TxM σ) (i : Nat) (acc : List ExecuteResultM) (total : Int),
      ((txLoop queries t i acc total).1).base = t.base := by
  induction queries with
  | nil => intro t i acc total; rfl
  | cons q rest ih =>
    intro t i acc total
    simp only [txLoop, txExec]
    cases hop : q.op t.cur with
    | error e => rfl
    | ok p =>
      cases p with
      | mk s2 n => simpa using ih ⟨t.base, s2⟩ (i + 1) (acc ++ [⟨n⟩]) (total + n)

theorem nonTxLoop_prefix {σ : Type} (pre : List (BatchQueryM σ)) :
    ∀ (f : BatchQueryM σ) (post : List (BatchQueryM σ)) (s : σ) (i : Nat)
      (acc : List ExecuteResultM) (total : Int) (s2 : σ) (e : Str),
      runPrefix pre s = some s2 → f.op s2 = .error e →
      nonTxLoop (pre ++ f :: post) s i acc total =
        (s2, .error (sLit "failed to execute query " ++ natRepr (i + pre.length)
          ++ sLit ": " ++ e)) := by
  induction pre with
  | nil =>
    intro f post s i acc total s2 e hrun hf
    simp only [runPrefix, Option.some_inj] at hrun
    subst hrun
    simp [nonTxLoop, hf]
  | cons q rest ih =>
    intro f post s i acc total s2 e hrun hf
    simp only [runPrefix] at hrun
    cases hop : q.op s with
    | error e2 => rw [hop] at hrun; cases hrun
    | ok p =>
      cases p with
      | mk s3 n =>
        rw [hop] at hrun
        have := ih f post s3 (i + 1) (acc ++ [⟨n⟩]) (total + n) s2 e hrun hf
        have harith : i + 1 + rest.length = i + (rest.length + 1) := by omega
        rw [harith] at this
        simp [nonTxLoop, hop, this]

/-! ## Claim theorems -/

/-- Claim C1: the claim says a read whose materialized row count exceeds
max_result_size_rows yields a 4007 result-size error with no data. The
code instead truncates first (OptimizeResultSet) and only then compares
against the cap, so the error branch can never fire: the result stage
always succeeds, and at the concrete failing input (cap 2, three rows) it
returns the truncated partial rows as a successful result. -/
theorem executeQuery_result_cap_unreachable :
    (∀ (cfg : SQLConfigM) (cols : List Str) (rows : List RowM),
      (executeQueryResultStage cfg cols rows).isOk = true)
    ∧ executeQueryResultStage ⟨[], [], true, true, true, 2⟩ [sLit "id"]
        [[(sLit "id", GoVal.vint 1)], [(sLit "id", GoVal.vint 2)], [(sLit "id", GoVal.vint 3)]]
      = .ok ⟨[sLit "id"], [[(sLit "id", GoVal.vint 1)], [(sLit "id", GoVal.vint 2)]], 2⟩ := by
  constructor
  · intro cfg cols rows
    unfold executeQueryResultStage optimizeResultSet
    by_cases h : rows.length ≤ cfg.maxResultSize
    · simp [h, Except.isOk, Except.toBool, show ¬ cfg.maxResultSize < rows.length by omega]
    · have hlen : (rows.take cfg.maxResultSize).length = cfg.maxResultSize := by
        simp [List.length_take]
        omega
      simp [h, hlen, Except.isOk, Except.toBool]
  · rfl

/-- Claim C8: ApplySort of both dialects agrees with the specified
behaviour: with an empty sort field the query is unchanged; otherwise the
trimmed, semicolon-stripped statement gets a comma-joined sort key
appended when it already contains an order by under a case-insensitive
scan, and a fresh ORDER BY otherwise, with the direction defaulting to
ASC whenever the supplied order is not exactly ASC or DESC. -/
theorem applySort_matches_spec (query sortBy sortOrder : Str) :
    postgresApplySort query sortBy sortOrder = specApplySort query sortBy sortOrder
    ∧ oracleApplySort query sortBy sortOrder = specApplySort query sortBy sortOrder := by
  constructor
  · unfold postgresApplySort specApplySort specNormalize
    by_cases h : sortBy = [] <;>
      by_cases hA : sortOrder = sLit "ASC" <;>
        by_cases hD : sortOrder = sLit "DESC" <;>
          simp [h, hA, hD]
  · unfold oracleApplySort specApplySort specNormalize
    by_cases h : sortBy = [] <;>
      by_cases hA : sortOrder = sLit "ASC" <;>
        by_cases hD : sortOrder = sLit "DESC" <;>
          simp [h, hA, hD]

/-- Claim C9: ApplyPagination of both dialects agrees with the specified
behaviour: a non-positive limit returns the input unchanged; otherwise
the trimmed, semicolon-stripped statement receives LIMIT n with OFFSET m
exactly when the offset is positive under postgres, and OFFSET m ROWS
FETCH NEXT n ROWS ONLY or FETCH FIRST n ROWS ONLY under oracle. -/
theorem applyPagination_matches_spec (query : Str) (offset limit : Int) :
    postgresApplyPagination query offset limit = specPostgresPagination query offset limit
    ∧ oracleApplyPagination query offset limit = specOraclePagination query offset limit := by
  constructor
  · unfold postgresApplyPagination specPostgresPagination specNormalize
    by_cases hl : limit ≤ 0 <;> by_cases ho : offset > 0 <;> simp [hl, ho]
  · unfold oracleApplyPagination specOraclePagination specNormalize
    by_cases hl : limit ≤ 0 <;> by_cases ho : offset > 0 <;> simp [hl, ho]

/-- Claim C2 (amended): when an operation of a transactional batch fails,
the transaction is rolled back, so the database state after the batch
equals the state before it, and the batch response is an error response
carrying total_affected_rows 0; its failed_count however is 0, not the
number of operations, because NewBatchSQLErrorResponse leaves the count
fields at their zero values. -/
theorem transactionalBatch_rollback_zero_counts (σ : Type) (cfg : SQLConfigM) (db s : σ)
    (queries : List (BatchQueryM σ)) (e : Str) (co : Bool)
    (hb : cfg.enableBatch = true)
    (ht : cfg.enableTransactions = true)
    (hne : queries.length ≠ 0)
    (hval : prevalidateBatch cfg queries 0 = .ok ())
    (hfail : executeBatchWithTransaction db queries = (s, Except.error e)) :
    s = db
    ∧ serviceExecuteBatch cfg db queries true co = (db, handleBatchExecutionError e)
    ∧ (handleBatchExecutionError e).success = false
    ∧ (handleBatchExecutionError e).totalAffectedRows = 0
    ∧ (handleBatchExecutionError e).failedCount = 0
    ∧ (handleBatchExecutionError e).executedCount = 0 := by
  have hs : s = db := by
    have hbase := txLoop_base queries (txBegin db) 0 [] 0
    simp only [executeBatchWithTransaction] at hfail
    cases hloop : txLoop queries (txBegin db) 0 [] 0 with
    | mk t2 r =>
      rw [hloop] at hfail hbase
      cases r with
      | error e2 =>
        simp only [txRollback] at hfail
        obtain ⟨h1, h2⟩ := Prod.mk.injEq .. ▸ hfail
        rw [← h1]
        exact hbase
      | ok p =>
        cases p with
        | mk results total => simp at hfail
  have hengine : engineExecuteBatch cfg db queries true = (s, Except.error e) := by
    unfold engineExecuteBatch
    rw [hb, hval]
    simp only [Bool.not_true, hne, if_neg, ht]
    simp [hne, hfail]
  refine ⟨hs, ?_, ?_, ?_, ?_, ?_⟩
  · unfold serviceExecuteBatch
    rw [hengine, hs]
  all_goals
    by_cases hc : containsSub e (sLit "transaction") <;>
      simp [handleBatchExecutionError, newBatchSQLErrorResponse, hc]

/-- Claim C2 counterexample: at a concrete failing transactional batch of
two operations the response carries failed_count 0, not the length of the
operation list as the claim requires. -/
theorem transactionalBatch_failedCount_counterexample :
    (serviceExecuteBatch demoConfig (37 : Int) [demoInsertOp, demoFailOp] true false).2.failedCount
      = 0
    ∧ (serviceExecuteBatch demoConfig (37 : Int) [demoInsertOp, demoFailOp] true
        false).2.failedCount ≠ [demoInsertOp, demoFailOp].length := by
  exact ⟨rfl, by decide⟩

/-- Claim C2 witness: the rollback-and-zero-counts theorem applied to the
concrete failing batch. -/
theorem transactionalBatch_rollback_zero_counts_witness :
    ((37 : Int) = (37 : Int)
     ∧ serviceExecuteBatch demoConfig (37 : Int) [demoInsertOp, demoFailOp] true true
        = ((37 : Int), handleBatchExecutionError demoTxError)
     ∧ (handleBatchExecutionError demoTxError).success = false
     ∧ (handleBatchExecutionError demoTxError).totalAffectedRows = 0
     ∧ (handleBatchExecutionError demoTxError).failedCount = 0
     ∧ (handleBatchExecutionError demoTxError).executedCount = 0) :=
  transactionalBatch_rollback_zero_counts Int demoConfig 37 37 [demoInsertOp, demoFailOp]
    demoTxError true rfl rfl (by decide) rfl rfl

/-- Claim C3 (amended): the request flag continue_on_error is dropped by
the service and never reaches the engine, so the batch outcome does not
depend on it; in non-transactional mode the first failing operation
aborts the batch with an error while the operations already applied stay
committed (the resulting state is exactly the state the successful prefix
produced, and the operations after the failure are never run). -/
theorem nonTransactionalBatch_ignores_continue_on_error :
    (∀ (σ : Type) (cfg : SQLConfigM) (db : σ) (queries : List (BatchQueryM σ))
       (t c₁ c₂ : Bool),
       serviceExecuteBatch cfg db queries t c₁ = serviceExecuteBatch cfg db queries t c₂)
    ∧ (∀ (σ : Type) (db : σ) (pre : List (BatchQueryM σ)) (f : BatchQueryM σ)
         (post : List (BatchQueryM σ)) (s : σ) (e : Str),
         runPrefix pre db = some s → f.op s = .error e →
         executeBatchWithoutTransaction db (pre ++ f :: post) =
           (s, .error (sLit "failed to execute query " ++ natRepr pre.length
             ++ sLit ": " ++ e))) := by
  constructor
  · intro σ cfg db queries t c₁ c₂
    rfl
  · intro σ db pre f post s e hrun hf
    have h := nonTxLoop_prefix pre f post db 0 [] 0 s e hrun hf
    rw [Nat.zero_add] at h
    unfold executeBatchWithoutTransaction
    rw [h]

/-- Claim C3 counterexample: a non-transactional batch with
continue_on_error true whose first operation fails: no per-slot failure is
recorded (the results array is empty and failed_count is 0) and the
remaining operation is never executed (the state is unchanged), so
execution does not continue as the claim requires. -/
theorem continueOnError_counterexample :
    (serviceExecuteBatch demoConfig (0 : Int) [demoFailOp, demoInsertOp] false true).1 = 0
    ∧ (serviceExecuteBatch demoConfig (0 : Int) [demoFailOp, demoInsertOp] false
        true).2.results = []
    ∧ (serviceExecuteBatch demoConfig (0 : Int) [demoFailOp, demoInsertOp] false
        true).2.failedCount = 0
    ∧ (serviceExecuteBatch demoConfig (0 : Int) [demoFailOp, demoInsertOp] false
        true).2.success = false :=
  ⟨rfl, rfl, rfl, rfl⟩

/-- Claim C3 witness: the abort theorem applied to a concrete batch whose
second operation fails after a successful first one. -/
theorem nonTransactionalBatch_abort_witness :
    (runPrefix [demoInsertOp] (0 : Int) = some 1
     ∧ demoFailOp.op (1 : Int)
        = .error (sLit "duplicate key value violates unique constraint"))
    ∧ executeBatchWithoutTransaction (0 : Int) [demoInsertOp, demoFailOp, demoInsertOp] =
        ((1 : Int), .error demoTxError) :=
  ⟨⟨rfl, rfl⟩,
   nonTransactionalBatch_ignores_continue_on_error.2 Int 0 [demoInsertOp] demoFailOp
     [demoInsertOp] 1 (sLit "duplicate key value violates unique constraint") rfl rfl⟩

theorem mapWithEntries_code_mem (codes : List (String × Nat × String)) (pats : List MapEntry)
    (errMsg original : Str)
    (hc : ∀ e ∈ codes, e.2.1 ∈ taxonomyCodes)
    (hp : ∀ p ∈ pats, p.code ∈ taxonomyCodes) :
    (mapWithEntries codes pats errMsg original).code ∈ taxonomyCodes := by
  unfold mapWithEntries
  cases hfind : codes.find? (fun e => containsSub errMsg (sLit e.1)) with
  | some e =>
    exact hc e (List.mem_of_find?_eq_some hfind)
  | none =>
    cases hfind2 : pats.find? (fun p => p.test errMsg) with
    | some p =>
      exact hp p (List.mem_of_find?_eq_some hfind2)
    | none =>
      show sqlErrorSyntax ∈ taxonomyCodes
      decide

theorem mapWithEntries_no_match (codes : List (String × Nat × String)) (pats : List MapEntry)
    (errMsg original : Str)
    (hc : ∀ e ∈ codes, containsSub errMsg (sLit e.1) = false)
    (hp : ∀ p ∈ pats, p.test errMsg = false) :
    mapWithEntries codes pats errMsg original
      = ⟨sqlErrorSyntax, sLit "Database error", original⟩ := by
  have h1 : codes.find? (fun e => containsSub errMsg (sLit e.1)) = none :=
    List.find?_eq_none.mpr (fun e he => by simp [hc e he])
  have h2 : pats.find? (fun p => p.test errMsg) = none :=
    List.find?_eq_none.mpr (fun p hpmem => by simp [hp p hpmem])
  unfold mapWithEntries
  rw [h1, h2]

theorem pgPatterns_codes : ∀ p ∈ pgPatterns, p.code ∈ taxonomyCodes := by
  intro p hp
  fin_cases hp <;> decide

theorem oraclePatterns_codes : ∀ p ∈ oraclePatterns, p.code ∈ taxonomyCodes := by
  intro p hp
  fin_cases hp <;> decide

theorem genericPatterns_codes : ∀ p ∈ genericPatterns, p.code ∈ taxonomyCodes := by
  intro p hp
  fin_cases hp <;> decide

/-- Claim C7: every classified error carries a taxonomy code in the range
4001 to 4007, and an error whose message contains no known
backend-specific code fragment and matches no regex family is classified
as 4001 with the message Database error and the original text in the
details field. -/
theorem mapError_total_and_default :
    (∀ (dbType errText : Str), (mapErrorM dbType errText).code ∈ taxonomyCodes)
    ∧ (∀ (dbType errText : Str),
        noMapperMatch (mapperCodesFor dbType) (mapperPatternsFor dbType) (toLowerStr errText) →
        mapErrorM dbType errText = ⟨sqlErrorSyntax, sLit "Database error", errText⟩) := by
  constructor
  · intro dbType errText
    unfold mapErrorM mapPostgreSQLError mapOracleError mapGenericError
    by_cases hpg : dbType = sLit "postgres"
    · simp only [hpg, if_true]
      exact mapWithEntries_code_mem _ _ _ _ (by decide) pgPatterns_codes
    · by_cases hora : dbType = sLit "oracle"
      · simp only [hpg, hora, if_false, if_true]
        exact mapWithEntries_code_mem _ _ _ _ (by decide) oraclePatterns_codes
      · simp only [hpg, hora, if_false]
        exact mapWithEntries_code_mem _ _ _ _ (by decide) genericPatterns_codes
  · intro dbType errText hno
    unfold mapErrorM mapPostgreSQLError mapOracleError mapGenericError
    unfold mapperCodesFor mapperPatternsFor at hno
    by_cases hpg : dbType = sLit "postgres"
    · simp only [hpg, if_true] at hno ⊢
      exact mapWithEntries_no_match _ _ _ _ hno.1 hno.2
    · by_cases hora : dbType = sLit "oracle"
      · simp only [hpg, hora, if_false, if_true] at hno ⊢
        exact mapWithEntries_no_match _ _ _ _ hno.1 hno.2
      · simp only [hpg, hora, if_false] at hno ⊢
        exact mapWithEntries_no_match _ _ _ _ hno.1 hno.2

/-- Claim C10: a raw statement from whose cleaned text the security
validator extracts no table name is always rejected: the table-permission
check yields the no-tables error, ValidateQuery fails, and both
ExecuteQuery and ExecuteSQL refuse the statement whatever the
configuration and parameters. -/
theorem noTables_always_rejected (cfg : SQLConfigM) (query : Str)
    (params : List (Str × GoVal))
    (h : extractTableNames (trimSpace (toLowerStr query)) = []) :
    checkTablePermission cfg (trimSpace (toLowerStr query))
      = .error (sLit "no tables found in query")
    ∧ (securityValidateQuery cfg query params).isOk = false
    ∧ (executeQueryGate cfg query params).isOk = false
    ∧ (executeSQLGate cfg query params).isOk = false := by
  have htp : checkTablePermission cfg (trimSpace (toLowerStr query))
      = .error (sLit "no tables found in query") := by
    simp [checkTablePermission, h]
  have hsec : (securityValidateQuery cfg query params).isOk = false := by
    unfold securityValidateQuery
    by_cases hq : query = []
    · simp [hq, Except.isOk, Except.toBool]
    · simp only [hq, if_false]
      cases h1 : checkSQLInjection query with
      | error e => simp [Except.isOk, Except.toBool]
      | ok u =>
        cases h2 : checkDangerousKeywords (trimSpace (toLowerStr query)) with
        | error e => simp [Except.isOk, Except.toBool]
        | ok u2 =>
          cases h3 : checkActionPermission cfg (trimSpace (toLowerStr query)) with
          | error e => simp [Except.isOk, Except.toBool]
          | ok u3 =>
            rw [htp]
            simp [Except.isOk, Except.toBool]
  refine ⟨htp, hsec, ?_, ?_⟩
  · unfold executeQueryGate
    cases hvs : validateQueryStructure query with
    | error e => simp [Except.isOk, Except.toBool]
    | ok u =>
      cases hsv : securityValidateQuery cfg query params with
      | error e => simp [Except.isOk, Except.toBool]
      | ok u2 =>
        rw [hsv] at hsec
        simp [Except.isOk, Except.toBool] at hsec
  · unfold executeSQLGate
    cases hvs : validateQueryStructure query with
    | error e => simp [Except.isOk, Except.toBool]
    | ok u =>
      cases hsv : securityValidateQuery cfg query params with
      | error e => simp [Except.isOk, Except.toBool]
      | ok u2 =>
        rw [hsv] at hsec
        simp [Except.isOk, Except.toBool] at hsec

/-- Claim C10 witness: SELECT 1 extracts no tables and is rejected under
the demo configuration. -/
theorem noTables_always_rejected_witness :
    extractTableNames (trimSpace (toLowerStr (sLit "SELECT 1"))) = []
    ∧ (checkTablePermission demoConfig (trimSpace (toLowerStr (sLit "SELECT 1")))
        = .error (sLit "no tables found in query")
       ∧ (securityValidateQuery demoConfig (sLit "SELECT 1") []).isOk = false
       ∧ (executeQueryGate demoConfig (sLit "SELECT 1") []).isOk = false
       ∧ (executeSQLGate demoConfig (sLit "SELECT 1") []).isOk = false) :=
  ⟨by decide, noTables_always_rejected demoConfig (sLit "SELECT 1") [] (by decide)⟩

/-- Claim C6 (amended): after both validators pass, ExecuteQuery refuses
a statement exactly when its trimmed lower-cased text does not begin with
select; a statement whose first token is with therefore is refused, not
executed. -/
theorem executeQuery_select_only_gate (cfg : SQLConfigM) (query : Str)
    (params : List (Str × GoVal))
    (hstruct : validateQueryStructure query = .ok ())
    (hsec : securityValidateQuery cfg query params = .ok ()) :
    (executeQueryGate cfg query params = .ok ()) ↔ isSelectQuery query = true := by
  unfold executeQueryGate
  rw [hstruct, hsec]
  by_cases hsel : isSelectQuery query <;> simp [hsel]

/-- Claim C6 counterexample: a CTE read statement passes both validators,
its first token is with, and the read gate still refuses it. -/
theorem withQuery_refused_counterexample :
    validateQueryStructure withQuery = .ok ()
    ∧ securityValidateQuery demoConfig withQuery [] = .ok ()
    ∧ (fieldsStr (trimSpace (toLowerStr withQuery))).head? = some (sLit "with")
    ∧ executeQueryGate demoConfig withQuery []
      = .error (sLit "only SELECT queries are allowed in ExecuteQuery") :=
  ⟨rfl, rfl, rfl, rfl⟩

/-- Claim C6 witness: the gate equivalence applied to a plain select that
passes both validators. -/
theorem executeQuery_select_only_gate_witness :
    (validateQueryStructure plainSelect = .ok ()
     ∧ securityValidateQuery demoConfig plainSelect [] = .ok ())
    ∧ ((executeQueryGate demoConfig plainSelect [] = .ok ())
        ↔ isSelectQuery plainSelect = true) :=
  ⟨⟨rfl, rfl⟩, executeQuery_select_only_gate demoConfig plainSelect [] rfl rfl⟩

theorem buildWhereAux_len (dbType : Str) (conds : List (Str × GoVal)) (i : Nat) :
    (buildWhereAux dbType conds i).1.length = conds.length := by
  induction conds generalizing i with
  | nil => rfl
  | cons p rest ih =>
    cases p with
    | mk f v => simp [buildWhereAux, ih]

theorem buildWhereAux_clause_get (dbType : Str) (conds : List (Str × GoVal)) (i : Nat) :
    ∀ j (hj : j < conds.length),
      ((buildWhereAux dbType conds i).1).get? j
        = some ((conds.get ⟨j, hj⟩).1 ++ sLit " = " ++ getParameterPlaceholder dbType (i + j)) := by
  induction conds generalizing i with
  | nil => intro j hj; cases hj
  | cons p rest ih =>
    intro j hj
    cases p with
    | mk f v =>
      cases j with
      | zero => simp [buildWhereAux]
      | succ j =>
        have hj2 : j < rest.length := by simpa using Nat.lt_of_succ_lt_succ hj
        have := ih (i + 1) j hj2
        have harith : i + 1 + j = i + (j + 1) := by omega
        rw [harith] at this
        simpa [buildWhereAux] using this

/-- Claim C5: a structured delete with an empty condition map is refused
by the builder with no SQL emitted, and with a non-empty condition map it
yields DELETE FROM the table WHERE with exactly one column equals
placeholder clause per entry, joined by AND, the parameters walking the
condition values from param_1. -/
theorem buildDelete_requires_where (dbType : Str) (q : StructuredQueryM)
    (ha : toLowerStr q.action = sLit "delete") :
    (q.whereMap = [] →
      buildStructuredQuery dbType q
        = .error (sLit "WHERE clause is required for DELETE operation"))
    ∧ (q.whereMap ≠ [] →
      ∃ clauses,
        buildStructuredQuery dbType q
          = .ok (sLit "DELETE FROM " ++ q.table ++ sLit " WHERE "
              ++ joinSep (sLit " AND ") clauses,
            specParams (q.whereMap.map Prod.snd) 1)
        ∧ clauses.length = q.whereMap.length
        ∧ ∀ j (hj : j < q.whereMap.length),
            clauses.get? j = some ((q.whereMap.get ⟨j, hj⟩).1 ++ sLit " = "
              ++ getParameterPlaceholder dbType (1 + j))) := by
  have hdispatch : buildStructuredQuery dbType q = buildDeleteQuery dbType q := by
    unfold buildStructuredQuery
    rw [ha, if_neg (by decide), if_neg (by decide), if_neg (by decide), if_pos rfl]
  constructor
  · intro hempty
    rw [hdispatch]
    unfold buildDeleteQuery
    rw [if_neg (by simp [hempty])]
  · intro hne
    rw [hdispatch]
    refine ⟨(buildWhereAux dbType q.whereMap 1).1, ?_, buildWhereAux_len dbType q.whereMap 1,
      fun j hj => buildWhereAux_clause_get dbType q.whereMap 1 j hj⟩
    unfold buildDeleteQuery buildWhereClause
    rw [if_pos (by simpa [List.length_pos] using hne)]
    have hp := buildWhereAux_params dbType q.whereMap 1
    rcases hw : buildWhereAux dbType q.whereMap 1 with ⟨cs, ps⟩
    rw [hw] at hp
    simp only [Prod.snd] at hp
    simp [hp]

/-- Claim C5 witness: the delete claims applied to concrete delete
requests with and without a condition. -/
theorem buildDelete_requires_where_witness :
    (toLowerStr demoDeleteNoWhere.action = sLit "delete"
     ∧ toLowerStr demoDeleteQuery.action = sLit "delete"
     ∧ demoDeleteNoWhere.whereMap = []
     ∧ demoDeleteQuery.whereMap ≠ [])
    ∧ buildStructuredQuery (sLit "postgres") demoDeleteNoWhere
        = .error (sLit "WHERE clause is required for DELETE operation")
    ∧ (∃ clauses,
        buildStructuredQuery (sLit "postgres") demoDeleteQuery
          = .ok (sLit "DELETE FROM " ++ demoDeleteQuery.table ++ sLit " WHERE "
              ++ joinSep (sLit " AND ") clauses,
            specParams (demoDeleteQuery.whereMap.map Prod.snd) 1)
        ∧ clauses.length = demoDeleteQuery.whereMap.length
        ∧ ∀ j (hj : j < demoDeleteQuery.whereMap.length),
            clauses.get? j = some ((demoDeleteQuery.whereMap.get ⟨j, hj⟩).1 ++ sLit " = "
              ++ getParameterPlaceholder (sLit "postgres") (1 + j))) :=
  ⟨⟨by decide, by decide, rfl, by decide⟩,
   (buildDelete_requires_where (sLit "postgres") demoDeleteNoWhere (by decide)).1 rfl,
   (buildDelete_requires_where (sLit "postgres") demoDeleteQuery (by decide)).2 (by decide)⟩

theorem infix_append_right {s t : Str} (h : s <:+: t) (u : Str) : s <:+: t ++ u :=
  h.trans (List.prefix_append t u).isInfix

theorem prefix_if_append (t : Str) (c : Prop) [Decidable c] (u : Str) :
    t <+: (if c then t ++ u else t) := by
  by_cases hc : c <;> simp [hc]

theorem buildSelectQuery_params (dbType : Str) (q : StructuredQueryM) (sql : Str)
    (params : List (Str × GoVal)) (h : buildSelectQuery dbType q = .ok (sql, params)) :
    params = specParams (q.whereMap.map Prod.snd ++ q.havingMap.map Prod.snd) 1 := by
  unfold buildSelectQuery buildWhereClause at h
  by_cases hw : q.whereMap.length > 0 <;> by_cases hh : q.havingMap.length > 0 <;>
    simp only [hw, hh, if_true, if_false, ite_true, ite_false, Except.ok.injEq,
      Prod.mk.injEq] at h
  · obtain ⟨-, hP⟩ := h
    rw [← hP, buildWhereAux_params, buildWhereAux_params, specParams_append,
      specParams_length, List.length_map]
  · have hhe : q.havingMap = [] := by
      cases hmap : q.havingMap with
      | nil => rfl
      | cons a l => rw [hmap] at hh; simp at hh
    obtain ⟨-, hP⟩ := h
    rw [← hP, buildWhereAux_params, hhe]
    simp [specParams]
  · have hwe : q.whereMap = [] := by
      cases hmap : q.whereMap with
      | nil => rfl
      | cons a l => rw [hmap] at hw; simp at hw
    obtain ⟨-, hP⟩ := h
    rw [← hP, buildWhereAux_params, hwe]
    simp [specParams]
  · have hhe : q.havingMap = [] := by
      cases hmap : q.havingMap with
      | nil => rfl
      | cons a l => rw [hmap] at hh; simp at hh
    have hwe : q.whereMap = [] := by
      cases hmap : q.whereMap with
      | nil => rfl
      | cons a l => rw [hmap] at hw; simp at hw
    obtain ⟨-, hP⟩ := h
    rw [← hP, hwe, hhe]
    simp [specParams]

theorem buildInsertQuery_params (dbType : Str) (q : StructuredQueryM) (sql : Str)
    (params : List (Str × GoVal)) (h : buildInsertQuery dbType q = .ok (sql, params)) :
    params = specParams (q.dataMap.map Prod.snd) 1 := by
  unfold buildInsertQuery at h
  by_cases hd : q.dataMap.length = 0
  · simp [hd] at h
  · simp only [hd, if_false, ite_false, Except.ok.injEq, Prod.mk.injEq] at h
    obtain ⟨-, hP⟩ := h
    rw [← hP, insertLoopAux_params]

theorem buildUpdateQuery_params (dbType : Str) (q : StructuredQueryM) (sql : Str)
    (params : List (Str × GoVal)) (h : buildUpdateQuery dbType q = .ok (sql, params)) :
    params = specParams (q.dataMap.map Prod.snd ++ q.whereMap.map Prod.snd) 1 := by
  unfold buildUpdateQuery buildWhereClause at h
  by_cases hd : q.dataMap.length = 0
  · simp [hd] at h
  · by_cases hw : q.whereMap.length > 0 <;>
      simp only [hd, hw, if_true, if_false, ite_true, ite_false, Except.ok.injEq,
        Prod.mk.injEq] at h
    · obtain ⟨-, hP⟩ := h
      rw [← hP, buildWhereAux_params, buildWhereAux_params, specParams_append,
        List.length_map]
    · have hwe : q.whereMap = [] := by
        cases hmap : q.whereMap with
        | nil => rfl
        | cons a l => rw [hmap] at hw; simp at hw
      obtain ⟨-, hP⟩ := h
      rw [← hP, buildWhereAux_params, hwe]
      simp [specParams]

theorem buildDeleteQuery_params (dbType : Str) (q : StructuredQueryM) (sql : Str)
    (params : List (Str × GoVal)) (h : buildDeleteQuery dbType q = .ok (sql, params)) :
    params = specParams (q.whereMap.map Prod.snd) 1 := by
  unfold buildDeleteQuery buildWhereClause at h
  by_cases hw : q.whereMap.length > 0
  · simp only [hw, if_true, ite_true, Except.ok.injEq, Prod.mk.injEq] at h
    obtain ⟨-, hP⟩ := h
    rw [← hP, buildWhereAux_params]
  · simp [hw] at h

theorem prefix_append2 (t u v : Str) : t <+: t ++ u ++ v := by
  simp [List.append_assoc]

theorem prefix_if_append2 (t : Str) (c : Prop) [Decidable c] (u v : Str) :
    t <+: (if c then t ++ u ++ v else t) := by
  by_cases hc : c
  · simp [hc, List.append_assoc]
  · simp [hc]

theorem buildSelectQuery_contains (dbType : Str) (q : StructuredQueryM) (sql : Str)
    (params : List (Str × GoVal)) (h : buildSelectQuery dbType q = .ok (sql, params)) :
    ∀ j, j < q.whereMap.length + q.havingMap.length →
      containsSub sql (getParameterPlaceholder dbType (j + 1)) = true := by
  have hwlen : (buildWhereAux dbType q.whereMap 1).2.length = q.whereMap.length := by
    rw [buildWhereAux_params, specParams_length, List.length_map]
  unfold buildSelectQuery buildWhereClause at h
  by_cases hw : q.whereMap.length > 0 <;> by_cases hh : q.havingMap.length > 0 <;>
    simp only [hw, hh, if_true, if_false, ite_true, ite_false, Except.ok.injEq,
      Prod.mk.injEq] at h
  · obtain ⟨hS, -⟩ := h
    intro j hj
    rw [← hS]
    apply containsSub_of_infix
    refine List.IsInfix.trans ?_ (prefix_if_append2 _ _ _ _).isInfix
    refine List.IsInfix.trans ?_ (prefix_if_append2 _ _ _ _).isInfix
    by_cases hcase : j < q.whereMap.length
    · refine List.IsInfix.trans ?_ (prefix_append2 _ _ _).isInfix
      refine List.IsInfix.trans ?_ (prefix_if_append2 _ _ _ _).isInfix
      refine List.IsInfix.trans ?_ (List.suffix_append _ _).isInfix
      have := buildWhere_join_contains dbType (sLit " AND ") q.whereMap 1 hcase
      simpa [Nat.add_comm] using this
    · refine List.IsInfix.trans ?_ (List.suffix_append _ _).isInfix
      have hj2 : j - q.whereMap.length < q.havingMap.length := by omega
      have hmem := buildWhere_join_contains dbType (sLit " AND ") q.havingMap
        (1 + (buildWhereAux dbType q.whereMap 1).2.length) hj2
      have harg : 1 + (buildWhereAux dbType q.whereMap 1).2.length
          + (j - q.whereMap.length) = j + 1 := by
        rw [hwlen]; omega
      rw [harg] at hmem
      exact hmem
  · have hhe : q.havingMap.length = 0 := by omega
    obtain ⟨hS, -⟩ := h
    intro j hj
    have hcase : j < q.whereMap.length := by omega
    rw [← hS]
    apply containsSub_of_infix
    refine List.IsInfix.trans ?_ (prefix_if_append2 _ _ _ _).isInfix
    refine List.IsInfix.trans ?_ (prefix_if_append2 _ _ _ _).isInfix
    refine List.IsInfix.trans ?_ (prefix_if_append2 _ _ _ _).isInfix
    refine List.IsInfix.trans ?_ (List.suffix_append _ _).isInfix
    have := buildWhere_join_contains dbType (sLit " AND ") q.whereMap 1 hcase
    simpa [Nat.add_comm] using this
  · have hwe : q.whereMap.length = 0 := by omega
    obtain ⟨hS, -⟩ := h
    intro j hj
    have hcase : j < q.havingMap.length := by omega
    rw [← hS]
    apply containsSub_of_infix
    refine List.IsInfix.trans ?_ (prefix_if_append2 _ _ _ _).isInfix
    refine List.IsInfix.trans ?_ (prefix_if_append2 _ _ _ _).isInfix
    refine List.IsInfix.trans ?_ (List.suffix_append _ _).isInfix
    have := buildWhere_join_contains dbType (sLit " AND ") q.havingMap 1 hcase
    simpa [Nat.add_comm] using this
  · intro j hj
    omega

theorem buildInsertQuery_contains (dbType : Str) (q : StructuredQueryM) (sql : Str)
    (params : List (Str × GoVal)) (h : buildInsertQuery dbType q = .ok (sql, params)) :
    ∀ j, j < q.dataMap.length →
      containsSub sql (getParameterPlaceholder dbType (j + 1)) = true := by
  unfold buildInsertQuery at h
  by_cases hd : q.dataMap.length = 0
  · simp [hd] at h
  · simp only [hd, if_false, ite_false, Except.ok.injEq, Prod.mk.injEq] at h
    obtain ⟨hS, -⟩ := h
    intro j hj
    rw [← hS]
    apply containsSub_of_infix
    refine List.IsInfix.trans ?_ (infix_append_right (List.suffix_append _ _).isInfix _)
    have hmem := insertLoopAux_placeholder_mem dbType q.dataMap 1 j hj
    rw [Nat.add_comm 1 j] at hmem
    exact joinSep_mem_part hmem

theorem buildUpdateQuery_contains (dbType : Str) (q : StructuredQueryM) (sql : Str)
    (params : List (Str × GoVal)) (h : buildUpdateQuery dbType q = .ok (sql, params)) :
    ∀ j, j < q.dataMap.length + q.whereMap.length →
      containsSub sql (getParameterPlaceholder dbType (j + 1)) = true := by
  unfold buildUpdateQuery buildWhereClause at h
  by_cases hd : q.dataMap.length = 0
  · simp [hd] at h
  · by_cases hw : q.whereMap.length > 0 <;>
      simp only [hd, hw, if_true, if_false, ite_true, ite_false, Except.ok.injEq,
        Prod.mk.injEq] at h
    · obtain ⟨hS, -⟩ := h
      intro j hj
      rw [← hS]
      apply containsSub_of_infix
      by_cases hcase : j < q.dataMap.length
      · refine List.IsInfix.trans ?_ (prefix_append2 _ _ _).isInfix
        refine List.IsInfix.trans ?_ (List.suffix_append _ _).isInfix
        have := buildWhere_join_contains dbType (sLit ", ") q.dataMap 1 hcase
        simpa [Nat.add_comm] using this
      · refine List.IsInfix.trans ?_ (List.suffix_append _ _).isInfix
        have hj2 : j - q.dataMap.length < q.whereMap.length := by omega
        have hmem := buildWhere_join_contains dbType (sLit " AND ") q.whereMap (1 + q.dataMap.length) hj2
        have harg : 1 + q.dataMap.length + (j - q.dataMap.length) = j + 1 := by omega
        rw [harg] at hmem
        exact hmem
    · have hwe : q.whereMap.length = 0 := by omega
      obtain ⟨hS, -⟩ := h
      intro j hj
      have hcase : j < q.dataMap.length := by omega
      rw [← hS]
      apply containsSub_of_infix
      refine List.IsInfix.trans ?_ (List.suffix_append _ _).isInfix
      have := buildWhere_join_contains dbType (sLit ", ") q.dataMap 1 hcase
      simpa [Nat.add_comm] using this

theorem buildDeleteQuery_contains (dbType : Str) (q : StructuredQueryM) (sql : Str)
    (params : List (Str × GoVal)) (h : buildDeleteQuery dbType q = .ok (sql, params)) :
    ∀ j, j < q.whereMap.length →
      containsSub sql (getParameterPlaceholder dbType (j + 1)) = true := by
  unfold buildDeleteQuery buildWhereClause at h
  by_cases hw : q.whereMap.length > 0
  · simp only [hw, if_true, ite_true, Except.ok.injEq, Prod.mk.injEq] at h
    obtain ⟨hS, -⟩ := h
    intro j hj
    rw [← hS]
    apply containsSub_of_infix
    refine List.IsInfix.trans ?_ (List.suffix_append _ _).isInfix
    have := buildWhere_join_contains dbType (sLit " AND ") q.whereMap 1 hj
    simpa [Nat.add_comm] using this
  · simp [hw] at h

/-- Claim C4: for every structured query the builder accepts under the
postgres or oracle dialect, the parameter map is exactly param_1 through
param_N bound, in order, to the values obtained by walking data, then
where, then having, over the clauses the action renders, and the emitted
SQL contains the placeholder of every index 1 through N. -/
theorem builder_param_alignment (dbType : Str)
    (_hdb : dbType = sLit "postgres" ∨ dbType = sLit "oracle")
    (q : StructuredQueryM) (sql : Str) (params : List (Str × GoVal))
    (hok : buildStructuredQuery dbType q = .ok (sql, params)) :
    params = specParams (walkedValues q) 1
    ∧ params.length = (walkedValues q).length
    ∧ ∀ j, j < (walkedValues q).length →
        containsSub sql (getParameterPlaceholder dbType (j + 1)) = true := by
  unfold buildStructuredQuery at hok
  unfold walkedValues
  by_cases hsel : toLowerStr q.action = sLit "select"
  · simp only [hsel, if_true, ite_true] at hok ⊢
    have hp := buildSelectQuery_params dbType q sql params hok
    refine ⟨hp, ?_, ?_⟩
    · rw [hp, specParams_length]
    · intro j hj
      have hj2 : j < q.whereMap.length + q.havingMap.length := by
        simpa [List.length_append, List.length_map] using hj
      exact buildSelectQuery_contains dbType q sql params hok j hj2
  · by_cases hins : toLowerStr q.action = sLit "insert"
    · simp only [hsel, hins, if_true, if_false, ite_true, ite_false,
        (by decide : ¬(sLit "insert" = sLit "select"))] at hok ⊢
      have hp := buildInsertQuery_params dbType q sql params hok
      refine ⟨hp, ?_, ?_⟩
      · rw [hp, specParams_length]
      · intro j hj
        have hj2 : j < q.dataMap.length := by
          simpa [List.length_map] using hj
        exact buildInsertQuery_contains dbType q sql params hok j hj2
    · by_cases hupd : toLowerStr q.action = sLit "update"
      · simp only [hsel, hins, hupd, if_true, if_false, ite_true, ite_false,
          (by decide : ¬(sLit "update" = sLit "select")),
          (by decide : ¬(sLit "update" = sLit "insert"))] at hok ⊢
        have hp := buildUpdateQuery_params dbType q sql params hok
        refine ⟨hp, ?_, ?_⟩
        · rw [hp, specParams_length]
        · intro j hj
          have hj2 : j < q.dataMap.length + q.whereMap.length := by
            simpa [List.length_append, List.length_map] using hj
          exact buildUpdateQuery_contains dbType q sql params hok j hj2
      · by_cases hdel : toLowerStr q.action = sLit "delete"
        · simp only [hsel, hins, hupd, hdel, if_true, if_false, ite_true, ite_false,
            (by decide : ¬(sLit "delete" = sLit "select")),
            (by decide : ¬(sLit "delete" = sLit "insert")),
            (by decide : ¬(sLit "delete" = sLit "update"))] at hok ⊢
          have hp := buildDeleteQuery_params dbType q sql params hok
          refine ⟨hp, ?_, ?_⟩
          · rw [hp, specParams_length]
          · intro j hj
            have hj2 : j < q.whereMap.length := by
              simpa [List.length_map] using hj
            exact buildDeleteQuery_contains dbType q sql params hok j hj2
        · simp only [hsel, hins, hupd, hdel, if_false, ite_false] at hok
          cases hok

/-- Claim C4 witness: the alignment theorem at a concrete update with two
data entries and one condition under postgres. -/
theorem builder_param_alignment_witness :
    buildStructuredQuery (sLit "postgres") demoUpdateQuery
      = .ok (demoUpdateSql, demoUpdateParams)
    ∧ (demoUpdateParams = specParams (walkedValues demoUpdateQuery) 1
       ∧ demoUpdateParams.length = (walkedValues demoUpdateQuery).length
       ∧ ∀ j, j < (walkedValues demoUpdateQuery).length →
          containsSub demoUpdateSql (getParameterPlaceholder (sLit "postgres") (j + 1))
            = true) :=
  ⟨rfl,
   builder_param_alignment (sLit "postgres") (Or.inl rfl) demoUpdateQuery demoUpdateSql
     demoUpdateParams rfl⟩

/-- Claim C7 witness: a message matching nothing maps to the default
4001 Database error with the original text in details. -/
theorem mapError_default_witness :
    noMapperMatch (mapperCodesFor (sLit "postgres")) (mapperPatternsFor (sLit "postgres"))
      (toLowerStr (sLit "boom"))
    ∧ mapErrorM (sLit "postgres") (sLit "boom")
      = ⟨sqlErrorSyntax, sLit "Database error", sLit "boom"⟩ :=
  ⟨by unfold noMapperMatch; exact ⟨by decide, by decide⟩,
   mapError_total_and_default.2 (sLit "postgres") (sLit "boom")
     (by unfold noMapperMatch; exact ⟨by decide, by decide⟩)⟩

end SqlToApi
